import Mathlib

/-!
# Finder and lister helpers of `internal/service/amp/find.go`

A shallow embedding of the four functions of `find.go`:
`FindScraperByID`, `FindWorkspaceByID`, `FindLoggingConfigurationByWorkspaceID`
and `FindWorkspaces` (namespace `Amp`), followed by the sweeper and the destroy
check of `internal/service/storagegateway/gateway_test.go` (namespace
`StorageGateway`).

Conventions of the embedding.

* A Go pointer `*T` is an `Option T`; `nil` is `none`.
* A Go slice `[]T` is a `List T`; the nil slice and the empty slice are both `[]`.
* A Go `error` is an `Option GoError`; the nil error is `none`.
* A Go function returning `(x, err)` returns a pair.
* A call on the connection is a state-passing function: it takes the request and
  the state of the remote service and gives back the response and the next state.
  The `context.Context` argument only travels to the connection, so it is part of
  that state.
-/

namespace Amp

/-! ## Data model -/

/-- Status record of a scraper (`types.ScraperStatus`). -/
structure ScraperStatus where
  StatusCode : String
deriving DecidableEq, Repr

/-- Status record of a workspace (`prometheusservice.WorkspaceStatus`). -/
structure WorkspaceStatus where
  StatusCode : Option String
deriving DecidableEq, Repr

/-- Status record of a logging configuration
(`prometheusservice.LoggingConfigurationStatus`). -/
structure LoggingConfigurationStatus where
  StatusCode : Option String
  StatusReason : Option String
deriving DecidableEq, Repr

/-- Descriptor of one scraper (`types.ScraperDescription`). -/
structure ScraperDescription where
  Alias : Option String
  Arn : Option String
  RoleArn : Option String
  ScraperId : Option String
  Status : Option ScraperStatus
  StatusReason : Option String
deriving DecidableEq, Repr

/-- Descriptor of one workspace (`prometheusservice.WorkspaceDescription`). -/
structure WorkspaceDescription where
  Alias : Option String
  Arn : Option String
  PrometheusEndpoint : Option String
  Status : Option WorkspaceStatus
  WorkspaceId : Option String
deriving DecidableEq, Repr

/-- Descriptor of one logging configuration
(`prometheusservice.LoggingConfigurationMetadata`). -/
structure LoggingConfigurationMetadata where
  LogGroupArn : Option String
  Status : Option LoggingConfigurationStatus
  Workspace : Option String
deriving DecidableEq, Repr

/-- Entry of a workspace listing (`prometheusservice.WorkspaceSummary`). -/
structure WorkspaceSummary where
  Alias : Option String
  Arn : Option String
  Status : Option WorkspaceStatus
  WorkspaceId : Option String
deriving DecidableEq, Repr

/-- Request of `DescribeScraper`. -/
structure DescribeScraperInput where
  ScraperId : Option String
deriving DecidableEq, Repr

/-- Request of `DescribeWorkspace`. -/
structure DescribeWorkspaceInput where
  WorkspaceId : Option String
deriving DecidableEq, Repr

/-- Request of `DescribeLoggingConfiguration`. -/
structure DescribeLoggingConfigurationInput where
  WorkspaceId : Option String
deriving DecidableEq, Repr

/-- Request of `ListWorkspaces`. -/
structure ListWorkspacesInput where
  Alias : Option String := none
  MaxResults : Option Int := none
  NextToken : Option String := none
deriving DecidableEq, Repr

/-- Response of `DescribeScraper`. -/
structure DescribeScraperOutput where
  Scraper : Option ScraperDescription
deriving DecidableEq, Repr

/-- Response of `DescribeWorkspace`. -/
structure DescribeWorkspaceOutput where
  Workspace : Option WorkspaceDescription
deriving DecidableEq, Repr

/-- Response of `DescribeLoggingConfiguration`. -/
structure DescribeLoggingConfigurationOutput where
  LoggingConfiguration : Option LoggingConfigurationMetadata
deriving DecidableEq, Repr

/-- One page of `ListWorkspaces`: the entries are pointers and may be nil. -/
structure ListWorkspacesOutput where
  NextToken : Option String
  Workspaces : List (Option WorkspaceSummary)
deriving DecidableEq, Repr

/-- The values stored in the `LastRequest interface{}` field of an error: the
describe requests built by the finders of this package. -/
inductive Request where
  | describeScraper (input : DescribeScraperInput)
  | describeWorkspace (input : DescribeWorkspaceInput)
  | describeLoggingConfiguration (input : DescribeLoggingConfigurationInput)
deriving DecidableEq, Repr

/-- A non-nil Go `error` value.

* `api code message`: an error produced by the SDK call (service error code and
  message; a cancelled context surfaces as such an error too).
* `NotFoundError LastError LastRequest`: the value
  `&retry.NotFoundError{LastError: err, LastRequest: input}`; the fields the
  finders leave at their zero value are not represented.
* `EmptyResultError LastRequest`: the value built by
  `tfresource.NewEmptyResultError`.
* `errorf message`: the value of a `fmt.Errorf` call without the `%w` verb, with
  its formatted message.
* `wrapf message err`: the value of `fmt.Errorf(message + "%w", err)`, which
  wraps `err`. -/
inductive GoError where
  | api (code : String) (message : String)
  | NotFoundError (LastError : GoError) (LastRequest : Request)
  | EmptyResultError (LastRequest : Request)
  | errorf (message : String)
  | wrapf (message : String) (err : GoError)
deriving DecidableEq, Repr

/-- Modelled from the spec: `tfresource.NewEmptyResultError` lives in
`internal/tfresource`, which is not among the sources. The spec describes its
result as an Empty-Result error "synthesized locally, referencing the original
request". -/
def NewEmptyResultError (lastRequest : Request) : GoError :=
  GoError.EmptyResultError lastRequest

/-- Result of one SDK call: the output pointer and the error. -/
abbrev Response (Out : Type) := Option Out × Option GoError

/-- A describe operation of the connection: request and service state in,
response and next service state out. -/
abbrev Operation (σ In Out : Type) := In → σ → Response Out × σ

/-- The connection `op` with a record of the requests it received, oldest
first. -/
def logged {σ In Out : Type} (op : Operation σ In Out) : Operation (σ × List In) In Out :=
  fun input s => ((op input s.1).1, ((op input s.1).2, s.2 ++ [input]))

/-- The connection `op` with a count of the calls it received. -/
def counted {σ In Out : Type} (op : Operation σ In Out) : Operation (σ × Nat) In Out :=
  fun input s => ((op input s.1).1, ((op input s.1).2, s.2 + 1))

/-- A run-time panic of the Go program: an access through a nil pointer, or a
type assertion on a value that is not of the asserted type. -/
inductive Panic where
  | nilDereference
  | typeAssertion
deriving DecidableEq, Repr

/-- Access through a pointer (`p.Field`, `*p`): a nil pointer panics. -/
def deref {α : Type} : Option α → Except Panic α
  | none => Except.error Panic.nilDereference
  | some a => Except.ok a

/-! ## The three finders

The not-found test of the source (`errs.IsA[*types.ResourceNotFoundException]`
for the scraper, `tfawserr.ErrCodeEquals(err, ErrCodeResourceNotFoundException)`
for the other two) is a library predicate on the error; both are built on
`errors.As`, which answers false on the nil error. The embedding takes the
predicate on non-nil errors as the parameter `isResourceNotFound` and lets the
first test fire on a non-nil error only. -/

/-- `FindScraperByID` (find.go, lines 19-42). -/
def FindScraperByID {σ : Type} (isResourceNotFound : GoError → Bool)
    (DescribeScraper : Operation σ DescribeScraperInput DescribeScraperOutput)
    (id : String) (s : σ) : (Option ScraperDescription × Option GoError) × σ :=
  let input : DescribeScraperInput := { ScraperId := some id }
  let r := DescribeScraper input s
  let output := r.1.1
  let err := r.1.2
  match err with
  | some e =>
    if isResourceNotFound e then
      ((none, some (GoError.NotFoundError e (Request.describeScraper input))), r.2)
    else
      ((none, some e), r.2)
  | none =>
    match output with
    | none => ((none, some (NewEmptyResultError (Request.describeScraper input))), r.2)
    | some out =>
      match out.Scraper with
      | none => ((none, some (NewEmptyResultError (Request.describeScraper input))), r.2)
      | some scraper =>
        match scraper.Status with
        | none => ((none, some (NewEmptyResultError (Request.describeScraper input))), r.2)
        | some _ => ((some scraper, none), r.2)

/-- `FindWorkspaceByID` (find.go, lines 44-67). -/
def FindWorkspaceByID {σ : Type} (isResourceNotFound : GoError → Bool)
    (DescribeWorkspace : Operation σ DescribeWorkspaceInput DescribeWorkspaceOutput)
    (id : String) (s : σ) : (Option WorkspaceDescription × Option GoError) × σ :=
  let input : DescribeWorkspaceInput := { WorkspaceId := some id }
  let r := DescribeWorkspace input s
  let output := r.1.1
  let err := r.1.2
  match err with
  | some e =>
    if isResourceNotFound e then
      ((none, some (GoError.NotFoundError e (Request.describeWorkspace input))), r.2)
    else
      ((none, some e), r.2)
  | none =>
    match output with
    | none => ((none, some (NewEmptyResultError (Request.describeWorkspace input))), r.2)
    | some out =>
      match out.Workspace with
      | none => ((none, some (NewEmptyResultError (Request.describeWorkspace input))), r.2)
      | some workspace =>
        match workspace.Status with
        | none => ((none, some (NewEmptyResultError (Request.describeWorkspace input))), r.2)
        | some _ => ((some workspace, none), r.2)

/-- `FindLoggingConfigurationByWorkspaceID` (find.go, lines 69-92). -/
def FindLoggingConfigurationByWorkspaceID {σ : Type} (isResourceNotFound : GoError → Bool)
    (DescribeLoggingConfiguration :
      Operation σ DescribeLoggingConfigurationInput DescribeLoggingConfigurationOutput)
    (id : String) (s : σ) : (Option LoggingConfigurationMetadata × Option GoError) × σ :=
  let input : DescribeLoggingConfigurationInput := { WorkspaceId := some id }
  let r := DescribeLoggingConfiguration input s
  let output := r.1.1
  let err := r.1.2
  match err with
  | some e =>
    if isResourceNotFound e then
      ((none, some (GoError.NotFoundError e (Request.describeLoggingConfiguration input))), r.2)
    else
      ((none, some e), r.2)
  | none =>
    match output with
    | none =>
      ((none, some (NewEmptyResultError (Request.describeLoggingConfiguration input))), r.2)
    | some out =>
      match out.LoggingConfiguration with
      | none =>
        ((none, some (NewEmptyResultError (Request.describeLoggingConfiguration input))), r.2)
      | some lc =>
        match lc.Status with
        | none =>
          ((none, some (NewEmptyResultError (Request.describeLoggingConfiguration input))), r.2)
        | some _ => ((some lc, none), r.2)

/-! ## The lister

`conn.ListWorkspacesPagesWithContext(ctx, input, fn)` is the SDK's paging loop

    for p.Next() {
        if !fn(p.Page().(*ListWorkspacesOutput), !p.HasNextPage()) { break }
    }
    return p.Err()

`p.Next()` sends the next request and answers false when that request fails
(the error is kept for `p.Err()`), when the previous page had no next token, or
when nothing is left. The service is represented by the list of what its
successive requests yield. -/

/-- What one request of the paging loop yields: a page (the pointer may be nil)
with the flag `lastPage = !p.HasNextPage()`, or a failure. -/
inductive PageEvent where
  | page (page : Option ListWorkspacesOutput) (lastPage : Bool)
  | fail (err : GoError)
deriving DecidableEq, Repr

/-- The SDK paging loop over a callback `fn` whose captured variables are the
state `σ`: final state of the captured variables and `p.Err()`. -/
def Pagination.run {σ : Type} (fn : σ → Option ListWorkspacesOutput → Bool → σ × Bool) :
    List PageEvent → σ → σ × Option GoError
  | [], s => (s, none)
  | PageEvent.fail e :: _, s => (s, some e)
  | PageEvent.page p lastPage :: rest, s =>
    let r := fn s p lastPage
    if r.2 && !lastPage then Pagination.run fn rest r.1 else (r.1, none)

/-- The pages on which the paging loop invokes the callback, in order, each with
its `lastPage` flag (same recursion as `Pagination.run`). -/
def Pagination.delivered {σ : Type} (fn : σ → Option ListWorkspacesOutput → Bool → σ × Bool) :
    List PageEvent → σ → List (Option ListWorkspacesOutput × Bool)
  | [], _ => []
  | PageEvent.fail _ :: _, _ => []
  | PageEvent.page p lastPage :: rest, s =>
    let r := fn s p lastPage
    (p, lastPage) :: (if r.2 && !lastPage then Pagination.delivered fn rest r.1 else [])

/-- The page callback of `FindWorkspaces` (find.go, lines 101-114); the captured
slice `output` is passed in and handed back. -/
def FindWorkspaces.pageFn (output : List (Option WorkspaceSummary))
    (page : Option ListWorkspacesOutput) (lastPage : Bool) :
    List (Option WorkspaceSummary) × Bool :=
  match page with
  | none => (output, !lastPage)
  | some page =>
    let output := page.Workspaces.foldl
      (fun output v =>
        match v with
        | none => output
        | some w => output ++ [some w])
      output
    (output, !lastPage)

/-- `FindWorkspaces` (find.go, lines 94-121). The connection maps the request
to what the successive page requests yield. The parameter `alias` of the source
is written `alias_`, `alias` being a reserved word. -/
def FindWorkspaces (ListWorkspacesPages : ListWorkspacesInput → List PageEvent)
    (alias_ : String) : List (Option WorkspaceSummary) × Option GoError :=
  let input : ListWorkspacesInput := {}
  let input := if alias_ ≠ "" then { input with Alias := some alias_ } else input
  let output : List (Option WorkspaceSummary) := []
  let r := Pagination.run FindWorkspaces.pageFn (ListWorkspacesPages input) output
  match r.2 with
  | some err => ([], some err)
  | none => (r.1, none)

/-- The entries a page contributes according to the specification: the non-nil
entries of its `Workspaces`, in order; a nil page has none. -/
def validEntries : Option ListWorkspacesOutput → List (Option WorkspaceSummary)
  | none => []
  | some page => page.Workspaces.filter Option.isSome

/-- The pages on which a paging loop that looks at the callback's answer only
(it goes on exactly while the callback answers true) invokes the callback. -/
def Pagination.deliveredUntilStop {σ : Type}
    (fn : σ → Option ListWorkspacesOutput → Bool → σ × Bool) :
    List PageEvent → σ → List (Option ListWorkspacesOutput × Bool)
  | [], _ => []
  | PageEvent.fail _ :: _, _ => []
  | PageEvent.page p lastPage :: rest, s =>
    let r := fn s p lastPage
    (p, lastPage) :: (if r.2 then Pagination.deliveredUntilStop fn rest r.1 else [])

/-- The pages the specification lets contribute: those yielded before a failed
request, up to and including the first one flagged as last. -/
def pagesUpToLast : List PageEvent → List (Option ListWorkspacesOutput × Bool)
  | [] => []
  | PageEvent.fail _ :: _ => []
  | PageEvent.page p lastPage :: rest =>
    (p, lastPage) :: (if lastPage then [] else pagesUpToLast rest)

/-- A remote `ListWorkspaces` operation over a fixed collection of workspaces:
it answers with one final page holding the workspaces the request's `Alias`
lets through, all of them when `Alias` is unset. `selects a w` tells whether
the filter value `a` lets a workspace aliased `w` through. -/
def listingService (selects : String → String → Bool) (existing : List WorkspaceSummary)
    (input : ListWorkspacesInput) : List PageEvent :=
  [PageEvent.page
    (some { NextToken := none,
            Workspaces := (existing.filter (fun w =>
              match input.Alias with
              | none => true
              | some a =>
                match w.Alias with
                | none => false
                | some wa => selects a wa)).map some })
    true]

/-- The filter of the service as documented for `ListWorkspaces`: the alias
begins with the filter value. -/
def beginsWith (a w : String) : Bool := a.data.isPrefixOf w.data

/-! ### The same functions with every pointer access made explicit

Each access through a pointer goes through `deref`, in the evaluation order of
the source (`||` evaluates its right operand only when the left one is false). -/

/-- `FindScraperByID` with explicit pointer accesses. -/
def FindScraperByID.checked {σ : Type} (isResourceNotFound : GoError → Bool)
    (DescribeScraper : Operation σ DescribeScraperInput DescribeScraperOutput)
    (id : String) (s : σ) :
    Except Panic ((Option ScraperDescription × Option GoError) × σ) :=
  let input : DescribeScraperInput := { ScraperId := some id }
  let r := DescribeScraper input s
  let output := r.1.1
  let err := r.1.2
  match err with
  | some e =>
    if isResourceNotFound e then
      pure ((none, some (GoError.NotFoundError e (Request.describeScraper input))), r.2)
    else
      pure ((none, some e), r.2)
  | none => do
    let missing ←
      if output.isNone then pure true
      else do
        let o ← deref output
        if o.Scraper.isNone then pure true
        else do
          let d ← deref o.Scraper
          pure d.Status.isNone
    if missing then
      pure ((none, some (NewEmptyResultError (Request.describeScraper input))), r.2)
    else do
      let o ← deref output
      pure ((o.Scraper, none), r.2)

/-- `FindWorkspaceByID` with explicit pointer accesses. -/
def FindWorkspaceByID.checked {σ : Type} (isResourceNotFound : GoError → Bool)
    (DescribeWorkspace : Operation σ DescribeWorkspaceInput DescribeWorkspaceOutput)
    (id : String) (s : σ) :
    Except Panic ((Option WorkspaceDescription × Option GoError) × σ) :=
  let input : DescribeWorkspaceInput := { WorkspaceId := some id }
  let r := DescribeWorkspace input s
  let output := r.1.1
  let err := r.1.2
  match err with
  | some e =>
    if isResourceNotFound e then
      pure ((none, some (GoError.NotFoundError e (Request.describeWorkspace input))), r.2)
    else
      pure ((none, some e), r.2)
  | none => do
    let missing ←
      if output.isNone then pure true
      else do
        let o ← deref output
        if o.Workspace.isNone then pure true
        else do
          let d ← deref o.Workspace
          pure d.Status.isNone
    if missing then
      pure ((none, some (NewEmptyResultError (Request.describeWorkspace input))), r.2)
    else do
      let o ← deref output
      pure ((o.Workspace, none), r.2)

/-- `FindLoggingConfigurationByWorkspaceID` with explicit pointer accesses. -/
def FindLoggingConfigurationByWorkspaceID.checked {σ : Type}
    (isResourceNotFound : GoError → Bool)
    (DescribeLoggingConfiguration :
      Operation σ DescribeLoggingConfigurationInput DescribeLoggingConfigurationOutput)
    (id : String) (s : σ) :
    Except Panic ((Option LoggingConfigurationMetadata × Option GoError) × σ) :=
  let input : DescribeLoggingConfigurationInput := { WorkspaceId := some id }
  let r := DescribeLoggingConfiguration input s
  let output := r.1.1
  let err := r.1.2
  match err with
  | some e =>
    if isResourceNotFound e then
      pure ((none, some (GoError.NotFoundError e
        (Request.describeLoggingConfiguration input))), r.2)
    else
      pure ((none, some e), r.2)
  | none => do
    let missing ←
      if output.isNone then pure true
      else do
        let o ← deref output
        if o.LoggingConfiguration.isNone then pure true
        else do
          let d ← deref o.LoggingConfiguration
          pure d.Status.isNone
    if missing then
      pure ((none, some (NewEmptyResultError
        (Request.describeLoggingConfiguration input))), r.2)
    else do
      let o ← deref output
      pure ((o.LoggingConfiguration, none), r.2)

/-- The SDK paging loop over a callback that may panic; a panic of the callback
ends the whole call. -/
def Pagination.runChecked {σ : Type}
    (fn : σ → Option ListWorkspacesOutput → Bool → Except Panic (σ × Bool)) :
    List PageEvent → σ → Except Panic (σ × Option GoError)
  | [], s => pure (s, none)
  | PageEvent.fail e :: _, s => pure (s, some e)
  | PageEvent.page p lastPage :: rest, s => do
    let r ← fn s p lastPage
    if r.2 && !lastPage then Pagination.runChecked fn rest r.1 else pure (r.1, none)

/-- The page callback of `FindWorkspaces` with explicit pointer accesses: the
page is accessed (`page.Workspaces`) after the nil test only; the entries are
compared with nil and appended as pointers, never accessed. -/
def FindWorkspaces.pageFnChecked (output : List (Option WorkspaceSummary))
    (page : Option ListWorkspacesOutput) (lastPage : Bool) :
    Except Panic (List (Option WorkspaceSummary) × Bool) :=
  if page.isNone then
    pure (output, !lastPage)
  else do
    let pg ← deref page
    let output := pg.Workspaces.foldl
      (fun output v => if v.isNone then output else output ++ [v])
      output
    pure (output, !lastPage)

/-- `FindWorkspaces` with explicit pointer accesses. -/
def FindWorkspaces.checked (ListWorkspacesPages : ListWorkspacesInput → List PageEvent)
    (alias_ : String) : Except Panic (List (Option WorkspaceSummary) × Option GoError) := do
  let input : ListWorkspacesInput := {}
  let input := if alias_ ≠ "" then { input with Alias := some alias_ } else input
  let output : List (Option WorkspaceSummary) := []
  let r ← Pagination.runChecked FindWorkspaces.pageFnChecked (ListWorkspacesPages input) output
  match r.2 with
  | some err => pure ([], some err)
  | none => pure (r.1, none)

/-! ### The finder pattern of the specification -/

/-- The four outcomes of a finder (specification, section 4.1). -/
inductive Outcome where
  | notFound
  | propagated
  | emptyResult
  | descriptor
deriving DecidableEq, Repr

/-- What the classification looks at in a provider response. -/
structure AbstractResponse where
  isNotFound : Bool
  hasError : Bool
  outputPresent : Bool
  objectPresent : Bool
  statusPresent : Bool
deriving DecidableEq, Repr

/-- The classification of the specification, rules 1 to 4 in their order. -/
def classify (a : AbstractResponse) : Outcome :=
  if a.isNotFound then Outcome.notFound
  else if a.hasError then Outcome.propagated
  else if !a.outputPresent || !a.objectPresent || !a.statusPresent then Outcome.emptyResult
  else Outcome.descriptor

/-- The abstract view of a response: `primary` reads the primary object off the
output and `hasStatus` tells whether that object carries a status. -/
def abstractResponse {Out D : Type} (isResourceNotFound : GoError → Bool)
    (primary : Out → Option D) (hasStatus : D → Bool) (resp : Response Out) :
    AbstractResponse :=
  { isNotFound :=
      match resp.2 with
      | some e => isResourceNotFound e
      | none => false
    hasError := resp.2.isSome
    outputPresent := resp.1.isSome
    objectPresent := (resp.1.bind primary).isSome
    statusPresent :=
      match resp.1.bind primary with
      | some d => hasStatus d
      | none => false }

/-- The pair a finder returns for an outcome: `err` is the provider's error,
`req` the request that was issued, `obj` the primary object of the output. -/
def outcomeResult {D : Type} (o : Outcome) (err : Option GoError) (req : Request)
    (obj : Option D) : Option D × Option GoError :=
  match o with
  | Outcome.notFound => (none, err.map (fun e => GoError.NotFoundError e req))
  | Outcome.propagated => (none, err)
  | Outcome.emptyResult => (none, some (NewEmptyResultError req))
  | Outcome.descriptor => (obj, none)

/-- The request for an alias as the specification describes it: `Alias` unset
for the empty string ("no filter") and set to the alias otherwise, nothing else
set. -/
def listRequest (a : String) : ListWorkspacesInput :=
  { Alias := if a = "" then none else some a, MaxResults := none, NextToken := none }

/-! ## Sample values used to instantiate the theorems -/

/-- A service whose first call yields `first` and every later call `later`; its
state is the number of calls received. -/
def twoPhaseOperation {In Out : Type} (first later : Response Out) : Operation Nat In Out :=
  fun _ n => (if n = 0 then first else later, n + 1)

/-- The error-code test `ErrCodeEquals(err, "ResourceNotFoundException")` on the
errors of the model. -/
def sampleIsNotFound : GoError → Bool
  | GoError.api code _ => code == "ResourceNotFoundException"
  | _ => false

/-- A service error reporting absence. -/
def sampleNotFound : GoError := GoError.api "ResourceNotFoundException" "no such resource"

/-- A service error of another kind. -/
def sampleThrottled : GoError := GoError.api "ThrottlingException" "rate exceeded"

/-- A service that answers every request with the same response and counts the
calls it received. -/
def constOperation {In Out : Type} (resp : Response Out) : Operation Nat In Out :=
  fun _ n => (resp, n + 1)

/-- A scraper descriptor with a status. -/
def sampleScraper : ScraperDescription :=
  { Alias := some "scr", Arn := none, RoleArn := none, ScraperId := some "s-1",
    Status := some { StatusCode := "ACTIVE" }, StatusReason := none }

/-- A workspace descriptor with a status. -/
def sampleWorkspace : WorkspaceDescription :=
  { Alias := some "prod-1", Arn := none, PrometheusEndpoint := none,
    Status := some { StatusCode := some "ACTIVE" }, WorkspaceId := some "ws-1" }

/-- A logging configuration descriptor with a status. -/
def sampleLogging : LoggingConfigurationMetadata :=
  { LogGroupArn := some "arn:lg", Workspace := some "ws-1",
    Status := some { StatusCode := some "ACTIVE", StatusReason := none } }

/-- A logging configuration descriptor populated except for its status. -/
def sampleLoggingNoStatus : LoggingConfigurationMetadata :=
  { LogGroupArn := some "arn:lg", Workspace := some "ws-1", Status := none }

/-- A listing entry with the given alias. -/
def sampleSummary (a : String) : WorkspaceSummary :=
  { Alias := some a, Arn := none, Status := none, WorkspaceId := none }

/-- A page with a hole between two valid entries. -/
def samplePage1 : ListWorkspacesOutput :=
  { NextToken := some "t1",
    Workspaces := [some (sampleSummary "a"), none, some (sampleSummary "b")] }

/-- A final page with a hole before its valid entry. -/
def samplePage2 : ListWorkspacesOutput :=
  { NextToken := none, Workspaces := [none, some (sampleSummary "c")] }

/-- Three requests: a page with a hole, a nil page, a final page with a hole. -/
def sampleScript : List PageEvent :=
  [PageEvent.page (some samplePage1) false, PageEvent.page none false,
    PageEvent.page (some samplePage2) true]

/-- Three requests whose pages hold no valid entry. -/
def sampleHollowScript : List PageEvent :=
  [PageEvent.page (some { NextToken := some "t1", Workspaces := [none, none] }) false,
    PageEvent.page none false,
    PageEvent.page (some { NextToken := none, Workspaces := [] }) true]

end Amp

/-! # Sweeper and checks of `internal/service/storagegateway/gateway_test.go`

The functions `sweepGateways` and `testAccCheckGatewayDestroy`. The page
callback of `sweepGateways` accesses its page and the entries of the page
without a nil test, so these functions are embedded with their pointer accesses
explicit and return in `Except Panic`. -/

namespace StorageGateway

open Amp

/-- Entry of a gateway listing (`storagegateway.GatewayInfo`). -/
structure GatewayInfo where
  GatewayARN : Option String
  GatewayId : Option String
  GatewayName : Option String
  GatewayType : Option String
deriving DecidableEq, Repr

/-- Request of `ListGateways`. -/
structure ListGatewaysInput where
  Limit : Option Int := none
  Marker : Option String := none
deriving DecidableEq, Repr

/-- One page of `ListGateways`: the entries are pointers. -/
structure ListGatewaysOutput where
  Gateways : List (Option GatewayInfo)
  Marker : Option String
deriving DecidableEq, Repr

/-- Request of `DeleteGateway`. -/
structure DeleteGatewayInput where
  GatewayARN : Option String
deriving DecidableEq, Repr

/-- Response of `DeleteGateway`. -/
structure DeleteGatewayOutput where
  GatewayARN : Option String
deriving DecidableEq, Repr

/-- Request of `DescribeGatewayInformation`. -/
structure DescribeGatewayInformationInput where
  GatewayARN : Option String
deriving DecidableEq, Repr

/-- Response of `DescribeGatewayInformation`. -/
structure DescribeGatewayInformationOutput where
  GatewayARN : Option String
  GatewayId : Option String
  GatewayName : Option String
  GatewayTimezone : Option String
  GatewayType : Option String
deriving DecidableEq, Repr

/-- The part of `terraform.InstanceState` the checks read. -/
structure InstanceState where
  ID : String
deriving DecidableEq, Repr

/-- The part of `terraform.ResourceState` the checks read; the field `Type` of
the source is written `Type_`. The resources of a state under test carry their
primary instance, so `Primary` is taken as present. -/
structure ResourceState where
  Type_ : String
  Primary : InstanceState
deriving DecidableEq, Repr

/-- What one request of the `ListGatewaysPages` loop yields. -/
inductive GatewayPageEvent where
  | page (page : Option ListGatewaysOutput) (lastPage : Bool)
  | fail (err : GoError)
deriving DecidableEq, Repr

/-- The lines `sweepGateways` writes through the `log` package:
"[DEBUG] No Storage Gateway Gateways to sweep",
"[INFO] Deleting Storage Gateway Gateway: name",
"[ERROR] Failed to delete Storage Gateway Gateway (name): err" and
"[WARN] Skipping Storage Gateway Gateway sweep for region: err". -/
inductive LogLine where
  | noGateways
  | deleting (name : String)
  | deleteFailed (name : String) (err : GoError)
  | skipping (region : String) (err : GoError)
deriving DecidableEq, Repr

/-- What `sweepGateways` acts on: the remote service and the log. -/
structure SweepState (σ : Type) where
  service : σ
  log : List LogLine
deriving DecidableEq, Repr

/-- The operations of `StorageGatewayConn` the sweeper uses: `ListGateways` maps
the request to what the successive page requests yield. -/
structure Conn (σ : Type) where
  ListGateways : ListGatewaysInput → List GatewayPageEvent
  DeleteGateway : Operation σ DeleteGatewayInput DeleteGatewayOutput

/-- The SDK paging loop `conn.ListGatewaysPages(input, fn)`, as for
`ListWorkspacesPagesWithContext`; a panic of the callback ends the whole call. -/
def ListGatewaysPages {τ : Type}
    (fn : τ → Option ListGatewaysOutput → Bool → Except Panic (τ × Bool)) :
    List GatewayPageEvent → τ → Except Panic (τ × Option GoError)
  | [], w => pure (w, none)
  | GatewayPageEvent.fail e :: _, w => pure (w, some e)
  | GatewayPageEvent.page p lastPage :: rest, w => do
    let r ← fn w p lastPage
    if r.2 && !lastPage then ListGatewaysPages fn rest r.1 else pure (r.1, none)

/-- The `for _, gateway := range page.Gateways` loop of the page callback
(gateway_test.go, lines 41-57). `isGatewayNotFound` stands for
`tfawserr.ErrMessageContains(err, storagegateway.ErrorCodeGatewayNotFound, "")`. -/
def sweepGateways.deleteEach {σ : Type} (isGatewayNotFound : GoError → Bool)
    (DeleteGateway : Operation σ DeleteGatewayInput DeleteGatewayOutput) :
    List (Option GatewayInfo) → SweepState σ → Except Panic (SweepState σ)
  | [], w => pure w
  | gateway :: rest, w => do
    let g ← deref gateway
    let name := g.GatewayName.getD ""
    let w : SweepState σ := { w with log := w.log ++ [LogLine.deleting name] }
    let input : DeleteGatewayInput := { GatewayARN := g.GatewayARN }
    let r := DeleteGateway input w.service
    let w : SweepState σ := { w with service := r.2 }
    match r.1.2 with
    | some err =>
      if isGatewayNotFound err then
        sweepGateways.deleteEach isGatewayNotFound DeleteGateway rest w
      else
        sweepGateways.deleteEach isGatewayNotFound DeleteGateway rest
          { w with log := w.log ++ [LogLine.deleteFailed name err] }
    | none => sweepGateways.deleteEach isGatewayNotFound DeleteGateway rest w

/-- The page callback of `sweepGateways` (gateway_test.go, lines 35-59). -/
def sweepGateways.pageFn {σ : Type} (isGatewayNotFound : GoError → Bool)
    (DeleteGateway : Operation σ DeleteGatewayInput DeleteGatewayOutput)
    (w : SweepState σ) (page : Option ListGatewaysOutput) (lastPage : Bool) :
    Except Panic (SweepState σ × Bool) := do
  let pg ← deref page
  if pg.Gateways.length = 0 then
    pure ({ w with log := w.log ++ [LogLine.noGateways] }, true)
  else do
    let w ← sweepGateways.deleteEach isGatewayNotFound DeleteGateway pg.Gateways w
    pure (w, !lastPage)

/-- `sweepGateways` (gateway_test.go, lines 28-68). `SharedRegionalSweepClient`
and `SkipSweepError` belong to `internal/sweep`, which is not among the sources,
and are parameters; the client comes back as a pointer and an error. -/
def sweepGateways {σ : Type}
    (SharedRegionalSweepClient : String → Option (Conn σ) × Option GoError)
    (isGatewayNotFound SkipSweepError : GoError → Bool)
    (region : String) (w : SweepState σ) : Except Panic (Option GoError × SweepState σ) :=
  let c := SharedRegionalSweepClient region
  match c.2 with
  | some err => pure (some (GoError.wrapf "error getting client: " err), w)
  | none =>
    match c.1 with
    | none => Except.error Panic.typeAssertion
    | some conn => do
      let p ← ListGatewaysPages (sweepGateways.pageFn isGatewayNotFound conn.DeleteGateway)
        (conn.ListGateways {}) w
      match p.2 with
      | some err =>
        if SkipSweepError err then
          pure (none, { p.1 with log := p.1.log ++ [LogLine.skipping region err] })
        else
          pure (some (GoError.wrapf "Error retrieving Storage Gateway Gateways: " err), p.1)
      | none => pure (none, p.1)

/-- `testAccCheckGatewayDestroy` (gateway_test.go, lines 842-866) over the
entries of `s.RootModule().Resources` in the order the `range` statement visits
them. `IsErrGatewayNotFound` belongs to the package under test, which is not
among the sources, and is a parameter. -/
def testAccCheckGatewayDestroy {σ : Type} (IsErrGatewayNotFound : GoError → Bool)
    (DescribeGatewayInformation :
      Operation σ DescribeGatewayInformationInput DescribeGatewayInformationOutput) :
    List (String × ResourceState) → σ → Option GoError × σ
  | [], s => (none, s)
  | (_, rs) :: rest, s =>
    if rs.Type_ ≠ "aws_storagegateway_gateway" then
      testAccCheckGatewayDestroy IsErrGatewayNotFound DescribeGatewayInformation rest s
    else
      let input : DescribeGatewayInformationInput := { GatewayARN := some rs.Primary.ID }
      let r := DescribeGatewayInformation input s
      match r.1.2 with
      | some err =>
        if IsErrGatewayNotFound err then (none, r.2) else (some err, r.2)
      | none =>
        testAccCheckGatewayDestroy IsErrGatewayNotFound DescribeGatewayInformation rest r.2

/-- Whether an event carries no nil pointer: its page is present and so is every
entry of the page. -/
def GatewayPageEvent.noNil : GatewayPageEvent → Bool
  | GatewayPageEvent.page none _ => false
  | GatewayPageEvent.page (some pg) _ => pg.Gateways.all Option.isSome
  | GatewayPageEvent.fail _ => true

/-- The entries of the pages yielded before a failed request, up to and
including the first page flagged as last, in listing order. -/
def gatewaysUpToLast : List GatewayPageEvent → List (Option GatewayInfo)
  | [] => []
  | GatewayPageEvent.fail _ :: _ => []
  | GatewayPageEvent.page p lastPage :: rest =>
    (match p with
      | none => []
      | some pg => pg.Gateways) ++ (if lastPage then [] else gatewaysUpToLast rest)

/-- The failure of the listing, if any: the first failed request met before a
page flagged as last. -/
def listingError : List GatewayPageEvent → Option GoError
  | [] => none
  | GatewayPageEvent.fail e :: _ => some e
  | GatewayPageEvent.page _ lastPage :: rest => if lastPage then none else listingError rest

/-- The `DeleteGateway` request for a listing entry. -/
def deleteRequest (g : GatewayInfo) : DeleteGatewayInput := { GatewayARN := g.GatewayARN }

/-! ## Sample values -/

/-- The error-code test for `GatewayNotFound` on the errors of the model. -/
def sampleIsGatewayNotFound : GoError → Bool
  | GoError.api code _ => code == "GatewayNotFound"
  | _ => false

/-- A service error reporting that the gateway is gone. -/
def sampleGatewayNotFound : GoError := GoError.api "GatewayNotFound" "gateway was deleted"

/-- A service error of another kind. -/
def sampleInternalError : GoError := GoError.api "InternalServerError" "try again"

/-- A listing entry. -/
def sampleGateway (n : String) : GatewayInfo :=
  { GatewayARN := some ("arn:aws:storagegateway:gateway/" ++ n), GatewayId := some n,
    GatewayName := some n, GatewayType := some "CACHED" }

/-- A describe response for an existing gateway. -/
def sampleGatewayInformation : DescribeGatewayInformationOutput :=
  { GatewayARN := some "arn:aws:storagegateway:gateway/sgw-1", GatewayId := some "sgw-1",
    GatewayName := some "test-gw-1", GatewayTimezone := some "GMT",
    GatewayType := some "CACHED" }

/-- A state holding one gateway resource. -/
def sampleState : List (String × ResourceState) :=
  [("aws_storagegateway_gateway.test",
    { Type_ := "aws_storagegateway_gateway",
      Primary := { ID := "arn:aws:storagegateway:gateway/sgw-1" } })]

/-- A state holding two gateway resources, visited in this order. -/
def sampleState2 : List (String × ResourceState) :=
  [("aws_storagegateway_gateway.gone",
    { Type_ := "aws_storagegateway_gateway",
      Primary := { ID := "arn:aws:storagegateway:gateway/sgw-0" } }),
   ("aws_storagegateway_gateway.test",
    { Type_ := "aws_storagegateway_gateway",
      Primary := { ID := "arn:aws:storagegateway:gateway/sgw-1" } })]

/-- A listing of one final page with one gateway. -/
def sampleListing1 : List GatewayPageEvent :=
  [GatewayPageEvent.page
    (some { Gateways := [some (sampleGateway "sgw-1")], Marker := none }) true]

/-- A listing of two pages with three gateways. -/
def sampleListing3 : List GatewayPageEvent :=
  [GatewayPageEvent.page
    (some { Gateways := [some (sampleGateway "sgw-1"), some (sampleGateway "sgw-2")],
            Marker := some "m1" }) false,
   GatewayPageEvent.page
    (some { Gateways := [some (sampleGateway "sgw-3")], Marker := none }) true]

/-- A `DeleteGateway` operation that fails for the gateway `sgw-1` with an
internal error, reports `sgw-2` as gone and succeeds otherwise; its state
counts the calls. -/
def sampleDelete : Operation Nat DeleteGatewayInput DeleteGatewayOutput :=
  fun input n =>
    (if input.GatewayARN = some "arn:aws:storagegateway:gateway/sgw-1" then
        (none, some sampleInternalError)
      else if input.GatewayARN = some "arn:aws:storagegateway:gateway/sgw-2" then
        (none, some sampleGatewayNotFound)
      else (some { GatewayARN := input.GatewayARN }, none),
     n + 1)

/-! ## The existence check -/

/-- `testAccCheckGatewayExists` (gateway_test.go, lines 868-894): the check
function it returns, run on the entries of `s.RootModule().Resources` (a map,
looked up by name). The pointer `gateway` is the address of a variable of the
caller (`&gateway` at every call of the file); the variable's value comes in as
`gateway` and goes out as the last component of the result. -/
def testAccCheckGatewayExists {σ : Type}
    (DescribeGatewayInformation :
      Operation σ DescribeGatewayInformationInput DescribeGatewayInformationOutput)
    (resourceName : String) (resources : List (String × ResourceState)) (s : σ)
    (gateway : DescribeGatewayInformationOutput) :
    Option GoError × σ × DescribeGatewayInformationOutput :=
  match resources.lookup resourceName with
  | none => (some (GoError.errorf ("Not found: " ++ resourceName)), s, gateway)
  | some rs =>
    let input : DescribeGatewayInformationInput := { GatewayARN := some rs.Primary.ID }
    let r := DescribeGatewayInformation input s
    match r.1.2 with
    | some err => (some err, r.2, gateway)
    | none =>
      match r.1.1 with
      | none =>
        (some (GoError.errorf ("Gateway " ++ rs.Primary.ID.quote ++ " does not exist")),
          r.2, gateway)
      | some output => (none, r.2, output)

/-- The describe requests for the gateway resources of a state, in the order
the resources are visited. -/
def gatewayRequests (resources : List (String × ResourceState)) :
    List DescribeGatewayInformationInput :=
  (resources.filter (fun r => r.2.Type_ = "aws_storagegateway_gateway")).map
    (fun r => { GatewayARN := some r.2.Primary.ID })

/-- A describe response of another gateway, used as the previous value of the
caller's variable. -/
def sampleOtherInformation : DescribeGatewayInformationOutput :=
  { GatewayARN := some "arn:aws:storagegateway:gateway/sgw-9", GatewayId := some "sgw-9",
    GatewayName := some "old", GatewayTimezone := none, GatewayType := some "STORED" }

/-- A state with a resource of another type before and after a gateway. -/
def sampleMixedState : List (String × ResourceState) :=
  [("aws_instance.test", { Type_ := "aws_instance", Primary := { ID := "i-1" } }),
   ("aws_storagegateway_gateway.test",
    { Type_ := "aws_storagegateway_gateway",
      Primary := { ID := "arn:aws:storagegateway:gateway/sgw-1" } }),
   ("aws_security_group.test", { Type_ := "aws_security_group", Primary := { ID := "sg-1" } })]

/-- A listing whose second request fails. -/
def sampleFailingListing : List GatewayPageEvent :=
  [GatewayPageEvent.page
    (some { Gateways := [some (sampleGateway "sgw-1")], Marker := some "m1" }) false,
   GatewayPageEvent.fail sampleInternalError]

/-- A page whose second entry is nil. -/
def sampleHolePage : ListGatewaysOutput :=
  { Gateways := [some (sampleGateway "sgw-1"), none], Marker := none }

/-- The connection `op` with a record of its calls, oldest first: each request
with the error its call returned. -/
def traced {σ In Out : Type} (op : Operation σ In Out) :
    Operation (σ × List (In × Option GoError)) In Out :=
  fun input s =>
    ((op input s.1).1, ((op input s.1).2, s.2 ++ [(input, (op input s.1).1.2)]))

/-- The events the paging loop gets to: those before a failed request or a page
flagged as last, that event included. -/
def reachedEvents : List GatewayPageEvent → List GatewayPageEvent
  | [] => []
  | GatewayPageEvent.fail e :: _ => [GatewayPageEvent.fail e]
  | GatewayPageEvent.page p lastPage :: rest =>
    GatewayPageEvent.page p lastPage :: (if lastPage then [] else reachedEvents rest)

/-- A listing of two pages with gateways, the first page with a nil entry after
its first gateway. -/
def sampleHoleListing : List GatewayPageEvent :=
  [GatewayPageEvent.page
    (some { Gateways := [some (sampleGateway "sgw-1"), none], Marker := some "m1" }) false,
   GatewayPageEvent.page
    (some { Gateways := [some (sampleGateway "sgw-3")], Marker := none }) true]

/-- A page with a nil entry before its one gateway. -/
def sampleLeadingHolePage : ListGatewaysOutput :=
  { Gateways := [none, some (sampleGateway "sgw-1")], Marker := none }

/-- A state with two gateway resources, visited in this order. -/
def sampleStateTwoGateways : List (String × ResourceState) :=
  [("aws_storagegateway_gateway.first",
    { Type_ := "aws_storagegateway_gateway",
      Primary := { ID := "arn:aws:storagegateway:gateway/sgw-1" } }),
   ("aws_storagegateway_gateway.second",
    { Type_ := "aws_storagegateway_gateway",
      Primary := { ID := "arn:aws:storagegateway:gateway/sgw-2" } })]

end StorageGateway

namespace Amp

/-! ## Theorems -/

/-! ### Auxiliary facts about the page callback and the paging loop -/

theorem foldl_keep_valid (ws : List (Option WorkspaceSummary))
    (out : List (Option WorkspaceSummary)) :
    ws.foldl
      (fun output v =>
        match v with
        | none => output
        | some w => output ++ [some w])
      out = out ++ ws.filter Option.isSome := by
  induction ws generalizing out with
  | nil => simp
  | cons v ws ih =>
    cases v with
    | none => simp [ih]
    | some w => simp [ih]

theorem pageFn_eq (out : List (Option WorkspaceSummary)) (page : Option ListWorkspacesOutput)
    (lastPage : Bool) :
    FindWorkspaces.pageFn out page lastPage = (out ++ validEntries page, !lastPage) := by
  cases page with
  | none => simp [FindWorkspaces.pageFn, validEntries]
  | some pg => simp [FindWorkspaces.pageFn, validEntries, foldl_keep_valid]

theorem run_pageFn_fst (script : List PageEvent) (out : List (Option WorkspaceSummary)) :
    (Pagination.run FindWorkspaces.pageFn script out).1
      = out ++ (Pagination.delivered FindWorkspaces.pageFn script out).flatMap
          (fun d => validEntries d.1) := by
  induction script generalizing out with
  | nil => simp [Pagination.run, Pagination.delivered]
  | cons ev rest ih =>
    cases ev with
    | fail e => simp [Pagination.run, Pagination.delivered]
    | page pg lastPage =>
      cases lastPage with
      | true => simp [Pagination.run, Pagination.delivered, pageFn_eq]
      | false => simp [Pagination.run, Pagination.delivered, pageFn_eq, ih]

theorem run_pageFn_prefix (pre : List (Option ListWorkspacesOutput)) (tail : List PageEvent)
    (out : List (Option WorkspaceSummary)) :
    Pagination.run FindWorkspaces.pageFn
        (pre.map (fun pg => PageEvent.page pg false) ++ tail) out
      = Pagination.run FindWorkspaces.pageFn tail (out ++ pre.flatMap validEntries) := by
  induction pre generalizing out with
  | nil => simp
  | cons pg pre ih => simp [Pagination.run, pageFn_eq, ih]

/-! ### The claims about the finders -/

/-- C1: when the provider's error is classified as resource-not-found, each of
the three finders returns a nil descriptor and a `NotFoundError` whose
`LastRequest` is the describe request that was issued (identifier field holding
`id`) and whose `LastError` is the provider's error, whatever output came with it. -/
theorem finders_not_found {σ : Type} (isResourceNotFound : GoError → Bool) (id : String)
    (e : GoError) (s tS tW tL : σ)
    (connS : Operation σ DescribeScraperInput DescribeScraperOutput)
    (connW : Operation σ DescribeWorkspaceInput DescribeWorkspaceOutput)
    (connL : Operation σ DescribeLoggingConfigurationInput DescribeLoggingConfigurationOutput)
    (outS : Option DescribeScraperOutput) (outW : Option DescribeWorkspaceOutput)
    (outL : Option DescribeLoggingConfigurationOutput)
    (hnf : isResourceNotFound e = true)
    (hS : connS { ScraperId := some id } s = ((outS, some e), tS))
    (hW : connW { WorkspaceId := some id } s = ((outW, some e), tW))
    (hL : connL { WorkspaceId := some id } s = ((outL, some e), tL)) :
    FindScraperByID isResourceNotFound connS id s
        = ((none, some (GoError.NotFoundError e
            (Request.describeScraper { ScraperId := some id }))), tS)
    ∧ FindWorkspaceByID isResourceNotFound connW id s
        = ((none, some (GoError.NotFoundError e
            (Request.describeWorkspace { WorkspaceId := some id }))), tW)
    ∧ FindLoggingConfigurationByWorkspaceID isResourceNotFound connL id s
        = ((none, some (GoError.NotFoundError e
            (Request.describeLoggingConfiguration { WorkspaceId := some id }))), tL) := by
  refine ⟨?_, ?_, ?_⟩
  · simp [FindScraperByID, hS, hnf]
  · simp [FindWorkspaceByID, hW, hnf]
  · simp [FindLoggingConfigurationByWorkspaceID, hL, hnf]

/-- Instance of C1: a service that reports absence while also handing back a
populated output. -/
theorem finders_not_found_witness :
    FindScraperByID sampleIsNotFound
        (constOperation (some { Scraper := some sampleScraper }, some sampleNotFound)) "s-1" 0
        = ((none, some (GoError.NotFoundError sampleNotFound
            (Request.describeScraper { ScraperId := some "s-1" }))), 1)
    ∧ FindWorkspaceByID sampleIsNotFound
        (constOperation (none, some sampleNotFound)) "s-1" 0
        = ((none, some (GoError.NotFoundError sampleNotFound
            (Request.describeWorkspace { WorkspaceId := some "s-1" }))), 1)
    ∧ FindLoggingConfigurationByWorkspaceID sampleIsNotFound
        (constOperation (none, some sampleNotFound)) "s-1" 0
        = ((none, some (GoError.NotFoundError sampleNotFound
            (Request.describeLoggingConfiguration { WorkspaceId := some "s-1" }))), 1) :=
  finders_not_found sampleIsNotFound "s-1" sampleNotFound 0 1 1 1 _ _ _ _ _ _
    (by decide) rfl rfl rfl

/-- C2: when the provider's error is nil and the output is nil, or its primary
object is nil, or that object's `Status` is nil (the three cases are the three
ways the chained lookup `output → object → Status` comes out nil), each finder
returns a nil descriptor and the Empty-Result error built from the request that
was issued. -/
theorem finders_empty_result {σ : Type} (isResourceNotFound : GoError → Bool) (id : String)
    (s tS tW tL : σ)
    (connS : Operation σ DescribeScraperInput DescribeScraperOutput)
    (connW : Operation σ DescribeWorkspaceInput DescribeWorkspaceOutput)
    (connL : Operation σ DescribeLoggingConfigurationInput DescribeLoggingConfigurationOutput)
    (outS : Option DescribeScraperOutput) (outW : Option DescribeWorkspaceOutput)
    (outL : Option DescribeLoggingConfigurationOutput)
    (hS : connS { ScraperId := some id } s = ((outS, none), tS))
    (hW : connW { WorkspaceId := some id } s = ((outW, none), tW))
    (hL : connL { WorkspaceId := some id } s = ((outL, none), tL))
    (mS : outS = none ∨ (∃ o, outS = some o ∧ o.Scraper = none)
      ∨ ∃ o d, outS = some o ∧ o.Scraper = some d ∧ d.Status = none)
    (mW : outW = none ∨ (∃ o, outW = some o ∧ o.Workspace = none)
      ∨ ∃ o d, outW = some o ∧ o.Workspace = some d ∧ d.Status = none)
    (mL : outL = none ∨ (∃ o, outL = some o ∧ o.LoggingConfiguration = none)
      ∨ ∃ o d, outL = some o ∧ o.LoggingConfiguration = some d ∧ d.Status = none) :
    FindScraperByID isResourceNotFound connS id s
        = ((none, some (NewEmptyResultError
            (Request.describeScraper { ScraperId := some id }))), tS)
    ∧ FindWorkspaceByID isResourceNotFound connW id s
        = ((none, some (NewEmptyResultError
            (Request.describeWorkspace { WorkspaceId := some id }))), tW)
    ∧ FindLoggingConfigurationByWorkspaceID isResourceNotFound connL id s
        = ((none, some (NewEmptyResultError
            (Request.describeLoggingConfiguration { WorkspaceId := some id }))), tL) := by
  refine ⟨?_, ?_, ?_⟩
  · rcases mS with h | ⟨o, h, h1⟩ | ⟨o, d, h, h1, h2⟩ <;> subst h <;>
      simp [FindScraperByID, hS, *]
  · rcases mW with h | ⟨o, h, h1⟩ | ⟨o, d, h, h1, h2⟩ <;> subst h <;>
      simp [FindWorkspaceByID, hW, *]
  · rcases mL with h | ⟨o, h, h1⟩ | ⟨o, d, h, h1, h2⟩ <;> subst h <;>
      simp [FindLoggingConfigurationByWorkspaceID, hL, *]

/-- Instance of C2, one missing part per finder: a nil output for the scraper, a
nil primary object for the workspace, and for the logging configuration an
object populated except for its status, which is not handed back. -/
theorem finders_empty_result_witness :
    FindScraperByID sampleIsNotFound (constOperation (none, none)) "s-1" 0
        = ((none, some (NewEmptyResultError
            (Request.describeScraper { ScraperId := some "s-1" }))), 1)
    ∧ FindWorkspaceByID sampleIsNotFound
        (constOperation (some { Workspace := none }, none)) "s-1" 0
        = ((none, some (NewEmptyResultError
            (Request.describeWorkspace { WorkspaceId := some "s-1" }))), 1)
    ∧ FindLoggingConfigurationByWorkspaceID sampleIsNotFound
        (constOperation (some { LoggingConfiguration := some sampleLoggingNoStatus }, none))
        "s-1" 0
        = ((none, some (NewEmptyResultError
            (Request.describeLoggingConfiguration { WorkspaceId := some "s-1" }))), 1) :=
  finders_empty_result sampleIsNotFound "s-1" 0 1 1 1 _ _ _ _ _ _ rfl rfl rfl
    (Or.inl rfl) (Or.inr (Or.inl ⟨_, rfl, rfl⟩)) (Or.inr (Or.inr ⟨_, _, rfl, rfl, rfl⟩))

/-- C3: when the provider's error is non-nil and not classified as
resource-not-found, each finder returns a nil descriptor and that very error,
whatever output came with it. -/
theorem finders_other_error {σ : Type} (isResourceNotFound : GoError → Bool) (id : String)
    (e : GoError) (s tS tW tL : σ)
    (connS : Operation σ DescribeScraperInput DescribeScraperOutput)
    (connW : Operation σ DescribeWorkspaceInput DescribeWorkspaceOutput)
    (connL : Operation σ DescribeLoggingConfigurationInput DescribeLoggingConfigurationOutput)
    (outS : Option DescribeScraperOutput) (outW : Option DescribeWorkspaceOutput)
    (outL : Option DescribeLoggingConfigurationOutput)
    (hnf : isResourceNotFound e = false)
    (hS : connS { ScraperId := some id } s = ((outS, some e), tS))
    (hW : connW { WorkspaceId := some id } s = ((outW, some e), tW))
    (hL : connL { WorkspaceId := some id } s = ((outL, some e), tL)) :
    FindScraperByID isResourceNotFound connS id s = ((none, some e), tS)
    ∧ FindWorkspaceByID isResourceNotFound connW id s = ((none, some e), tW)
    ∧ FindLoggingConfigurationByWorkspaceID isResourceNotFound connL id s
        = ((none, some e), tL) := by
  refine ⟨?_, ?_, ?_⟩
  · simp [FindScraperByID, hS, hnf]
  · simp [FindWorkspaceByID, hW, hnf]
  · simp [FindLoggingConfigurationByWorkspaceID, hL, hnf]

/-- Instance of C3: a throttling error, for the scraper together with a populated
output. -/
theorem finders_other_error_witness :
    FindScraperByID sampleIsNotFound
        (constOperation (some { Scraper := some sampleScraper }, some sampleThrottled)) "s-1" 0
        = ((none, some sampleThrottled), 1)
    ∧ FindWorkspaceByID sampleIsNotFound
        (constOperation (none, some sampleThrottled)) "s-1" 0
        = ((none, some sampleThrottled), 1)
    ∧ FindLoggingConfigurationByWorkspaceID sampleIsNotFound
        (constOperation (none, some sampleThrottled)) "s-1" 0
        = ((none, some sampleThrottled), 1) :=
  finders_other_error sampleIsNotFound "s-1" sampleThrottled 0 1 1 1 _ _ _ _ _ _
    (by decide) rfl rfl rfl

/-- C4: when the provider's error is nil and the output, its primary object and
that object's `Status` are all non-nil, each finder returns a nil error and the
primary object of the output as it is. -/
theorem finders_descriptor {σ : Type} (isResourceNotFound : GoError → Bool) (id : String)
    (s tS tW tL : σ)
    (connS : Operation σ DescribeScraperInput DescribeScraperOutput)
    (connW : Operation σ DescribeWorkspaceInput DescribeWorkspaceOutput)
    (connL : Operation σ DescribeLoggingConfigurationInput DescribeLoggingConfigurationOutput)
    (oS : DescribeScraperOutput) (oW : DescribeWorkspaceOutput)
    (oL : DescribeLoggingConfigurationOutput)
    (dS : ScraperDescription) (dW : WorkspaceDescription) (dL : LoggingConfigurationMetadata)
    (hS : connS { ScraperId := some id } s = ((some oS, none), tS))
    (hW : connW { WorkspaceId := some id } s = ((some oW, none), tW))
    (hL : connL { WorkspaceId := some id } s = ((some oL, none), tL))
    (pS : oS.Scraper = some dS) (pW : oW.Workspace = some dW)
    (pL : oL.LoggingConfiguration = some dL)
    (qS : dS.Status ≠ none) (qW : dW.Status ≠ none) (qL : dL.Status ≠ none) :
    FindScraperByID isResourceNotFound connS id s = ((oS.Scraper, none), tS)
    ∧ FindWorkspaceByID isResourceNotFound connW id s = ((oW.Workspace, none), tW)
    ∧ FindLoggingConfigurationByWorkspaceID isResourceNotFound connL id s
        = ((oL.LoggingConfiguration, none), tL) := by
  refine ⟨?_, ?_, ?_⟩
  · cases hq : dS.Status with
    | none => exact absurd hq qS
    | some st => simp [FindScraperByID, hS, pS, hq]
  · cases hq : dW.Status with
    | none => exact absurd hq qW
    | some st => simp [FindWorkspaceByID, hW, pW, hq]
  · cases hq : dL.Status with
    | none => exact absurd hq qL
    | some st => simp [FindLoggingConfigurationByWorkspaceID, hL, pL, hq]

/-- Instance of C4 on fully populated outputs. -/
theorem finders_descriptor_witness :
    FindScraperByID sampleIsNotFound
        (constOperation (some { Scraper := some sampleScraper }, none)) "ws-1" 0
        = ((some sampleScraper, none), 1)
    ∧ FindWorkspaceByID sampleIsNotFound
        (constOperation (some { Workspace := some sampleWorkspace }, none)) "ws-1" 0
        = ((some sampleWorkspace, none), 1)
    ∧ FindLoggingConfigurationByWorkspaceID sampleIsNotFound
        (constOperation (some { LoggingConfiguration := some sampleLogging }, none)) "ws-1" 0
        = ((some sampleLogging, none), 1) :=
  finders_descriptor sampleIsNotFound "ws-1" 0 1 1 1
    (constOperation (some { Scraper := some sampleScraper }, none))
    (constOperation (some { Workspace := some sampleWorkspace }, none))
    (constOperation (some { LoggingConfiguration := some sampleLogging }, none))
    _ _ _ sampleScraper sampleWorkspace sampleLogging rfl rfl rfl rfl rfl rfl
    (by decide) (by decide) (by decide)

/-- C5: for every provider response, each finder returns exactly one non-nil
result. Either the response has a nil error and a non-nil output, primary object
and `Status`, and the result is that primary object with a nil error; or the
descriptor is nil and the error is a `NotFoundError` around the provider's
error, the Empty-Result error for the request, or the provider's own error. -/
theorem finders_result_invariant {σ : Type} (isResourceNotFound : GoError → Bool)
    (id : String) (s : σ)
    (connS : Operation σ DescribeScraperInput DescribeScraperOutput)
    (connW : Operation σ DescribeWorkspaceInput DescribeWorkspaceOutput)
    (connL : Operation σ DescribeLoggingConfigurationInput
      DescribeLoggingConfigurationOutput) :
    (((FindScraperByID isResourceNotFound connS id s).1.1 = none
        ↔ (FindScraperByID isResourceNotFound connS id s).1.2 ≠ none)
      ∧ ((∃ o d st, (connS { ScraperId := some id } s).1 = (some o, none) ∧ o.Scraper = some d
            ∧ d.Status = some st
            ∧ (FindScraperByID isResourceNotFound connS id s).1 = (some d, none))
        ∨ ((FindScraperByID isResourceNotFound connS id s).1.1 = none
          ∧ ((∃ e, (connS { ScraperId := some id } s).1.2 = some e ∧ isResourceNotFound e = true
                ∧ (FindScraperByID isResourceNotFound connS id s).1.2
                  = some (GoError.NotFoundError e (Request.describeScraper { ScraperId := some id })))
            ∨ ((connS { ScraperId := some id } s).1.2 = none
                ∧ (FindScraperByID isResourceNotFound connS id s).1.2
                  = some (NewEmptyResultError (Request.describeScraper { ScraperId := some id })))
            ∨ (∃ e, (connS { ScraperId := some id } s).1.2 = some e
                ∧ (FindScraperByID isResourceNotFound connS id s).1.2 = some e)))))
    ∧
    (((FindWorkspaceByID isResourceNotFound connW id s).1.1 = none
        ↔ (FindWorkspaceByID isResourceNotFound connW id s).1.2 ≠ none)
      ∧ ((∃ o d st, (connW { WorkspaceId := some id } s).1 = (some o, none) ∧ o.Workspace = some d
            ∧ d.Status = some st
            ∧ (FindWorkspaceByID isResourceNotFound connW id s).1 = (some d, none))
        ∨ ((FindWorkspaceByID isResourceNotFound connW id s).1.1 = none
          ∧ ((∃ e, (connW { WorkspaceId := some id } s).1.2 = some e ∧ isResourceNotFound e = true
                ∧ (FindWorkspaceByID isResourceNotFound connW id s).1.2
                  = some (GoError.NotFoundError e (Request.describeWorkspace { WorkspaceId := some id })))
            ∨ ((connW { WorkspaceId := some id } s).1.2 = none
                ∧ (FindWorkspaceByID isResourceNotFound connW id s).1.2
                  = some (NewEmptyResultError (Request.describeWorkspace { WorkspaceId := some id })))
            ∨ (∃ e, (connW { WorkspaceId := some id } s).1.2 = some e
                ∧ (FindWorkspaceByID isResourceNotFound connW id s).1.2 = some e)))))
    ∧
    (((FindLoggingConfigurationByWorkspaceID isResourceNotFound connL id s).1.1 = none
        ↔ (FindLoggingConfigurationByWorkspaceID isResourceNotFound connL id s).1.2 ≠ none)
      ∧ ((∃ o d st, (connL { WorkspaceId := some id } s).1 = (some o, none) ∧ o.LoggingConfiguration = some d
            ∧ d.Status = some st
            ∧ (FindLoggingConfigurationByWorkspaceID isResourceNotFound connL id s).1 = (some d, none))
        ∨ ((FindLoggingConfigurationByWorkspaceID isResourceNotFound connL id s).1.1 = none
          ∧ ((∃ e, (connL { WorkspaceId := some id } s).1.2 = some e ∧ isResourceNotFound e = true
                ∧ (FindLoggingConfigurationByWorkspaceID isResourceNotFound connL id s).1.2
                  = some (GoError.NotFoundError e (Request.describeLoggingConfiguration { WorkspaceId := some id })))
            ∨ ((connL { WorkspaceId := some id } s).1.2 = none
                ∧ (FindLoggingConfigurationByWorkspaceID isResourceNotFound connL id s).1.2
                  = some (NewEmptyResultError (Request.describeLoggingConfiguration { WorkspaceId := some id })))
            ∨ (∃ e, (connL { WorkspaceId := some id } s).1.2 = some e
                ∧ (FindLoggingConfigurationByWorkspaceID isResourceNotFound connL id s).1.2 = some e))))) := by
  refine ⟨?_, ?_, ?_⟩
  · rcases h : connS { ScraperId := some id } s with ⟨⟨out, err⟩, t⟩
    cases err with
    | some e => by_cases hn : isResourceNotFound e = true <;> simp [FindScraperByID, h, hn]
    | none =>
      cases out with
      | none => simp [FindScraperByID, h]
      | some o =>
        cases ho : o.Scraper with
        | none => simp [FindScraperByID, h, ho]
        | some d =>
          cases hd : d.Status with
          | none => simp [FindScraperByID, h, ho, hd]
          | some st => simp [FindScraperByID, h, ho, hd]
  · rcases h : connW { WorkspaceId := some id } s with ⟨⟨out, err⟩, t⟩
    cases err with
    | some e => by_cases hn : isResourceNotFound e = true <;> simp [FindWorkspaceByID, h, hn]
    | none =>
      cases out with
      | none => simp [FindWorkspaceByID, h]
      | some o =>
        cases ho : o.Workspace with
        | none => simp [FindWorkspaceByID, h, ho]
        | some d =>
          cases hd : d.Status with
          | none => simp [FindWorkspaceByID, h, ho, hd]
          | some st => simp [FindWorkspaceByID, h, ho, hd]
  · rcases h : connL { WorkspaceId := some id } s with ⟨⟨out, err⟩, t⟩
    cases err with
    | some e => by_cases hn : isResourceNotFound e = true <;> simp [FindLoggingConfigurationByWorkspaceID, h, hn]
    | none =>
      cases out with
      | none => simp [FindLoggingConfigurationByWorkspaceID, h]
      | some o =>
        cases ho : o.LoggingConfiguration with
        | none => simp [FindLoggingConfigurationByWorkspaceID, h, ho]
        | some d =>
          cases hd : d.Status with
          | none => simp [FindLoggingConfigurationByWorkspaceID, h, ho, hd]
          | some st => simp [FindLoggingConfigurationByWorkspaceID, h, ho, hd]

/-! ### The claims about the lister -/

/-- C6: when the paging call ends without error, `FindWorkspaces` returns, with
a nil error, the concatenation in page order of the delivered pages' entries
with the nil entries removed and the order of the others unchanged. -/
theorem FindWorkspaces_valid_entries (script : List PageEvent) (alias_ : String)
    (hok : (Pagination.run FindWorkspaces.pageFn script []).2 = none) :
    FindWorkspaces (fun _ => script) alias_
      = ((Pagination.delivered FindWorkspaces.pageFn script []).flatMap
          (fun d => validEntries d.1), none) := by
  have h := run_pageFn_fst script []
  simp only [List.nil_append] at h
  simp [FindWorkspaces, hok, h]

/-- Instance of C6: holes inside two pages and a nil page in between. -/
theorem FindWorkspaces_valid_entries_witness :
    FindWorkspaces (fun _ => sampleScript) "prod"
      = ([some (sampleSummary "a"), some (sampleSummary "b"), some (sampleSummary "c")],
          none) :=
  FindWorkspaces_valid_entries sampleScript "prod" rfl

/-- C7: when the paging call fails after any number of delivered pages,
`FindWorkspaces` returns the nil list and the paging call's error as it is; the
entries accumulated from the earlier pages (second part) are not returned. -/
theorem FindWorkspaces_paging_error (pre : List (Option ListWorkspacesOutput))
    (e : GoError) (rest : List PageEvent) (alias_ : String) :
    FindWorkspaces
        (fun _ => pre.map (fun pg => PageEvent.page pg false) ++ PageEvent.fail e :: rest)
        alias_ = ([], some e)
    ∧ (Pagination.run FindWorkspaces.pageFn
        (pre.map (fun pg => PageEvent.page pg false) ++ PageEvent.fail e :: rest) []).1
      = pre.flatMap validEntries := by
  have h := run_pageFn_prefix pre (PageEvent.fail e :: rest) []
  simp only [List.nil_append] at h
  constructor
  · simp [FindWorkspaces, h, Pagination.run]
  · simp [h, Pagination.run]

/-- C8: when the paging call ends without error and every delivered page is nil
or holds nil entries only (in particular when no page is delivered),
`FindWorkspaces` returns the empty list and a nil error. -/
theorem FindWorkspaces_no_entries (script : List PageEvent) (alias_ : String)
    (hok : (Pagination.run FindWorkspaces.pageFn script []).2 = none)
    (hnone : ∀ d ∈ Pagination.delivered FindWorkspaces.pageFn script [],
      ∀ pg, d.1 = some pg → ∀ w ∈ pg.Workspaces, w = none) :
    FindWorkspaces (fun _ => script) alias_ = ([], none)
    ∧ (FindWorkspaces (fun _ => script) alias_).1.length = 0 := by
  have h := run_pageFn_fst script []
  simp only [List.nil_append] at h
  have hz : (Pagination.delivered FindWorkspaces.pageFn script []).flatMap
      (fun d => validEntries d.1) = [] := by
    rw [List.flatMap_eq_nil_iff]
    intro d hd
    rcases d with ⟨pg, lp⟩
    cases pg with
    | none => rfl
    | some pg =>
      simp only [validEntries, List.filter_eq_nil_iff]
      intro w hw
      simp [hnone _ hd pg rfl w hw]
  have hf : FindWorkspaces (fun _ => script) alias_ = ([], none) := by
    simp [FindWorkspaces, hok, h, hz]
  exact ⟨hf, by rw [hf]; rfl⟩

/-- Instance of C8: no page at all, and pages without a valid entry. -/
theorem FindWorkspaces_no_entries_witness :
    (FindWorkspaces (fun _ => []) "" = ([], none)
      ∧ (FindWorkspaces (fun _ => []) "").1.length = 0)
    ∧ (FindWorkspaces (fun _ => sampleHollowScript) "" = ([], none)
      ∧ (FindWorkspaces (fun _ => sampleHollowScript) "").1.length = 0) :=
  ⟨FindWorkspaces_no_entries [] "" rfl (by decide),
   FindWorkspaces_no_entries sampleHollowScript "" rfl (by decide)⟩

/-- C9: the request `FindWorkspaces` hands to the paging call has `Alias` unset
when the alias is the empty string and set to the alias otherwise, and neither
`MaxResults` nor `NextToken` set; the result is read off the paging call on
that request. -/
theorem FindWorkspaces_request (conn : ListWorkspacesInput → List PageEvent)
    (alias_ : String) :
    FindWorkspaces conn alias_
      = match (Pagination.run FindWorkspaces.pageFn
          (conn { Alias := if alias_ = "" then none else some alias_,
                  MaxResults := none, NextToken := none }) []).2 with
        | some err => ([], some err)
        | none => ((Pagination.run FindWorkspaces.pageFn
            (conn { Alias := if alias_ = "" then none else some alias_,
                    MaxResults := none, NextToken := none }) []).1, none) := by
  by_cases h : alias_ = "" <;> simp [FindWorkspaces, h]

/-- C10: on a nil page the callback leaves the accumulated entries as they are
and answers the negation of `lastPage`; accordingly the paging loop stops with
the entries of the earlier pages when `lastPage` is true and goes on with them
when it is false. -/
theorem FindWorkspaces_nil_page (output : List (Option WorkspaceSummary)) (lastPage : Bool)
    (rest : List PageEvent) :
    FindWorkspaces.pageFn output none lastPage = (output, !lastPage)
    ∧ Pagination.run FindWorkspaces.pageFn (PageEvent.page none lastPage :: rest) output
      = (if lastPage then (output, none)
          else Pagination.run FindWorkspaces.pageFn rest output) := by
  cases lastPage <;> simp [FindWorkspaces.pageFn, Pagination.run]

/-! ### Auxiliary facts for the later claims -/

theorem delivered_pageFn (script : List PageEvent) (out : List (Option WorkspaceSummary)) :
    Pagination.delivered FindWorkspaces.pageFn script out = pagesUpToLast script := by
  induction script generalizing out with
  | nil => rfl
  | cons ev rest ih =>
    cases ev with
    | fail e => rfl
    | page pg lastPage =>
      cases lastPage with
      | true => simp [Pagination.delivered, pagesUpToLast, pageFn_eq]
      | false => simp [Pagination.delivered, pagesUpToLast, pageFn_eq, ih]

theorem deliveredUntilStop_pageFn (script : List PageEvent)
    (out : List (Option WorkspaceSummary)) :
    Pagination.deliveredUntilStop FindWorkspaces.pageFn script out = pagesUpToLast script := by
  induction script generalizing out with
  | nil => rfl
  | cons ev rest ih =>
    cases ev with
    | fail e => rfl
    | page pg lastPage =>
      cases lastPage with
      | true => simp [Pagination.deliveredUntilStop, pagesUpToLast, pageFn_eq]
      | false => simp [Pagination.deliveredUntilStop, pagesUpToLast, pageFn_eq, ih]

theorem pagesUpToLast_isInitial (script : List PageEvent) :
    (pagesUpToLast script).map (fun d => PageEvent.page d.1 d.2) <+: script := by
  induction script with
  | nil => simp [pagesUpToLast]
  | cons ev rest ih =>
    cases ev with
    | fail e => simp [pagesUpToLast]
    | page pg lastPage =>
      cases lastPage with
      | true => simp [pagesUpToLast]
      | false => simpa [pagesUpToLast] using ih

theorem pagesUpToLast_flags (script : List PageEvent) :
    ∀ d ∈ (pagesUpToLast script).dropLast, d.2 = false := by
  induction script with
  | nil => simp [pagesUpToLast]
  | cons ev rest ih =>
    cases ev with
    | fail e => simp [pagesUpToLast]
    | page pg lastPage =>
      cases lastPage with
      | true => simp [pagesUpToLast]
      | false =>
        intro d hd
        simp only [pagesUpToLast, Bool.false_eq_true, if_false] at hd
        cases hr : pagesUpToLast rest with
        | nil => simp [hr] at hd
        | cons x xs =>
          rw [hr, List.dropLast_cons₂] at hd
          rcases List.mem_cons.mp hd with h | h
          · rw [h]
          · exact ih d (by rw [hr]; exact h)

theorem pageFnChecked_eq (out : List (Option WorkspaceSummary))
    (page : Option ListWorkspacesOutput) (lastPage : Bool) :
    FindWorkspaces.pageFnChecked out page lastPage
      = Except.ok (FindWorkspaces.pageFn out page lastPage) := by
  cases page with
  | none => rfl
  | some pg =>
    have h : ∀ (ws : List (Option WorkspaceSummary)) (o : List (Option WorkspaceSummary)),
        ws.foldl (fun output v => if v.isNone then output else output ++ [v]) o
          = ws.foldl
              (fun output v =>
                match v with
                | none => output
                | some w => output ++ [some w]) o := by
      intro ws
      induction ws with
      | nil => intro o; rfl
      | cons v ws ih =>
        intro o
        cases v with
        | none => simpa using ih o
        | some w => simpa using ih (o ++ [some w])
    simpa [FindWorkspaces.pageFnChecked, FindWorkspaces.pageFn, deref, bind, Except.bind,
      pure, Except.pure] using h pg.Workspaces out

theorem runChecked_eq (script : List PageEvent) (out : List (Option WorkspaceSummary)) :
    Pagination.runChecked FindWorkspaces.pageFnChecked script out
      = Except.ok (Pagination.run FindWorkspaces.pageFn script out) := by
  induction script generalizing out with
  | nil => rfl
  | cons ev rest ih =>
    cases ev with
    | fail e => rfl
    | page pg lastPage =>
      cases lastPage with
      | true =>
        simp [Pagination.runChecked, Pagination.run, pageFnChecked_eq, bind, Except.bind,
          pure, Except.pure]
      | false =>
        simp [Pagination.runChecked, Pagination.run, pageFnChecked_eq, bind, Except.bind,
          pageFn_eq, ih]

/-! ### Further claims about the lister and the finders -/

/-- C11: for every page, nil or not, the callback answers the negation of
`lastPage`. Hence under a paging loop that goes on exactly while the callback
answers true, and under the SDK loop, the callback is invoked on the pages up
to and including the first one flagged as last: an initial segment of what the
requests yield (no page is skipped), in which only the final page can carry the
flag, and whose valid entries make up the accumulated result. -/
theorem FindWorkspaces_pages_until_last (script : List PageEvent)
    (out : List (Option WorkspaceSummary)) :
    (∀ (o : List (Option WorkspaceSummary)) (page : Option ListWorkspacesOutput)
        (lastPage : Bool), (FindWorkspaces.pageFn o page lastPage).2 = !lastPage)
    ∧ Pagination.deliveredUntilStop FindWorkspaces.pageFn script out = pagesUpToLast script
    ∧ Pagination.delivered FindWorkspaces.pageFn script out = pagesUpToLast script
    ∧ (pagesUpToLast script).map (fun d => PageEvent.page d.1 d.2) <+: script
    ∧ (∀ d ∈ (pagesUpToLast script).dropLast, d.2 = false)
    ∧ (Pagination.run FindWorkspaces.pageFn script out).1
        = out ++ (pagesUpToLast script).flatMap (fun d => validEntries d.1) := by
  refine ⟨?_, deliveredUntilStop_pageFn script out, delivered_pageFn script out,
    pagesUpToLast_isInitial script, pagesUpToLast_flags script, ?_⟩
  · intro o page lastPage
    rw [pageFn_eq]
  · rw [run_pageFn_fst, delivered_pageFn]

/-- C12: on every path each finder issues exactly one describe call: whatever
the response, a connection that counts its calls has received one more call
when the finder returns, and the service is in the state that one call left. -/
theorem finders_single_call {σ : Type} (isResourceNotFound : GoError → Bool)
    (id : String) (s : σ) (n : Nat)
    (connS : Operation σ DescribeScraperInput DescribeScraperOutput)
    (connW : Operation σ DescribeWorkspaceInput DescribeWorkspaceOutput)
    (connL : Operation σ DescribeLoggingConfigurationInput
      DescribeLoggingConfigurationOutput) :
    (FindScraperByID isResourceNotFound (counted connS) id (s, n)).2
        = ((connS { ScraperId := some id } s).2, n + 1)
    ∧ (FindWorkspaceByID isResourceNotFound (counted connW) id (s, n)).2
        = ((connW { WorkspaceId := some id } s).2, n + 1)
    ∧ (FindLoggingConfigurationByWorkspaceID isResourceNotFound (counted connL) id (s, n)).2
        = ((connL { WorkspaceId := some id } s).2, n + 1) := by
  refine ⟨?_, ?_, ?_⟩
  · simp only [FindScraperByID, counted]
    repeat' split
    all_goals rfl
  · simp only [FindWorkspaceByID, counted]
    repeat' split
    all_goals rfl
  · simp only [FindLoggingConfigurationByWorkspaceID, counted]
    repeat' split
    all_goals rfl

/-- C13: for every identifier, the empty string included, each finder issues
the describe call, and the request it sends holds exactly the identifier in
its identifier field: a connection that records its requests has received that
one request more. -/
theorem finders_request_identifier {σ : Type} (isResourceNotFound : GoError → Bool)
    (id : String) (s : σ)
    (connS : Operation σ DescribeScraperInput DescribeScraperOutput)
    (connW : Operation σ DescribeWorkspaceInput DescribeWorkspaceOutput)
    (connL : Operation σ DescribeLoggingConfigurationInput
      DescribeLoggingConfigurationOutput)
    (logS : List DescribeScraperInput) (logW : List DescribeWorkspaceInput)
    (logL : List DescribeLoggingConfigurationInput) :
    ((FindScraperByID isResourceNotFound (logged connS) id (s, logS)).2.2
        = logS ++ [{ ScraperId := some id }]
      ∧ (FindScraperByID isResourceNotFound (logged connS) "" (s, [])).2.2
        = [{ ScraperId := some "" }])
    ∧ ((FindWorkspaceByID isResourceNotFound (logged connW) id (s, logW)).2.2
        = logW ++ [{ WorkspaceId := some id }]
      ∧ (FindWorkspaceByID isResourceNotFound (logged connW) "" (s, [])).2.2
        = [{ WorkspaceId := some "" }])
    ∧ ((FindLoggingConfigurationByWorkspaceID isResourceNotFound (logged connL) id
          (s, logL)).2.2 = logL ++ [{ WorkspaceId := some id }]
      ∧ (FindLoggingConfigurationByWorkspaceID isResourceNotFound (logged connL) ""
          (s, [])).2.2 = [{ WorkspaceId := some "" }]) := by
  refine ⟨⟨?_, ?_⟩, ⟨?_, ?_⟩, ⟨?_, ?_⟩⟩
  all_goals
    simp only [FindScraperByID, FindWorkspaceByID, FindLoggingConfigurationByWorkspaceID,
      logged]
    repeat' split
    all_goals simp

/-- C14: a finder keeps nothing from one call to the next. Two runs, on any two
services in any two states, that receive the same response to their describe
call return the same pair; a run leaves the service in the state its one call
produced, so that a second run is answered by a fresh call; and a connection
that counts its calls has received two calls after two runs. -/
theorem finders_no_memoization {σ τ : Type} (isResourceNotFound : GoError → Bool)
    (id : String) (s : σ) (t : τ)
    (connS : Operation σ DescribeScraperInput DescribeScraperOutput)
    (connW : Operation σ DescribeWorkspaceInput DescribeWorkspaceOutput)
    (connL : Operation σ DescribeLoggingConfigurationInput
      DescribeLoggingConfigurationOutput)
    (otherS : Operation τ DescribeScraperInput DescribeScraperOutput)
    (otherW : Operation τ DescribeWorkspaceInput DescribeWorkspaceOutput)
    (otherL : Operation τ DescribeLoggingConfigurationInput
      DescribeLoggingConfigurationOutput)
    (hS : (connS { ScraperId := some id } s).1 = (otherS { ScraperId := some id } t).1)
    (hW : (connW { WorkspaceId := some id } s).1 = (otherW { WorkspaceId := some id } t).1)
    (hL : (connL { WorkspaceId := some id } s).1 = (otherL { WorkspaceId := some id } t).1) :
    ((FindScraperByID isResourceNotFound connS id s).1
        = (FindScraperByID isResourceNotFound otherS id t).1
      ∧ (FindScraperByID isResourceNotFound connS id s).2
        = (connS { ScraperId := some id } s).2
      ∧ (FindScraperByID isResourceNotFound (counted connS) id
          (FindScraperByID isResourceNotFound (counted connS) id (s, 0)).2).2.2 = 2)
    ∧ ((FindWorkspaceByID isResourceNotFound connW id s).1
        = (FindWorkspaceByID isResourceNotFound otherW id t).1
      ∧ (FindWorkspaceByID isResourceNotFound connW id s).2
        = (connW { WorkspaceId := some id } s).2
      ∧ (FindWorkspaceByID isResourceNotFound (counted connW) id
          (FindWorkspaceByID isResourceNotFound (counted connW) id (s, 0)).2).2.2 = 2)
    ∧ ((FindLoggingConfigurationByWorkspaceID isResourceNotFound connL id s).1
        = (FindLoggingConfigurationByWorkspaceID isResourceNotFound otherL id t).1
      ∧ (FindLoggingConfigurationByWorkspaceID isResourceNotFound connL id s).2
        = (connL { WorkspaceId := some id } s).2
      ∧ (FindLoggingConfigurationByWorkspaceID isResourceNotFound (counted connL) id
          (FindLoggingConfigurationByWorkspaceID isResourceNotFound (counted connL) id
            (s, 0)).2).2.2 = 2) := by
  refine ⟨⟨?_, ?_, ?_⟩, ⟨?_, ?_, ?_⟩, ⟨?_, ?_, ?_⟩⟩
  · simp only [FindScraperByID, hS]
    repeat' split
    all_goals rfl
  · simp only [FindScraperByID]
    repeat' split
    all_goals rfl
  · simp only [FindScraperByID, counted]
    repeat' split
    all_goals rfl
  · simp only [FindWorkspaceByID, hW]
    repeat' split
    all_goals rfl
  · simp only [FindWorkspaceByID]
    repeat' split
    all_goals rfl
  · simp only [FindWorkspaceByID, counted]
    repeat' split
    all_goals rfl
  · simp only [FindLoggingConfigurationByWorkspaceID, hL]
    repeat' split
    all_goals rfl
  · simp only [FindLoggingConfigurationByWorkspaceID]
    repeat' split
    all_goals rfl
  · simp only [FindLoggingConfigurationByWorkspaceID, counted]
    repeat' split
    all_goals rfl

/-- Instance of C14: a service that reports absence on the first call and hands
back a populated object from the second call on. The first run returns the
`NotFoundError`; the second run, on the state the first one left, returns what
a single run on a service giving the populated response returns. -/
theorem finders_no_memoization_witness :
    (FindScraperByID sampleIsNotFound
        (twoPhaseOperation (none, some sampleNotFound)
          (some { Scraper := some sampleScraper }, none)) "ws-1" 0).1
      = (none, some (GoError.NotFoundError sampleNotFound
          (Request.describeScraper { ScraperId := some "ws-1" })))
    ∧ (FindScraperByID sampleIsNotFound
        (twoPhaseOperation (none, some sampleNotFound)
          (some { Scraper := some sampleScraper }, none)) "ws-1"
        (FindScraperByID sampleIsNotFound
          (twoPhaseOperation (none, some sampleNotFound)
            (some { Scraper := some sampleScraper }, none)) "ws-1" 0).2).1
      = (some sampleScraper, none)
    ∧ (FindWorkspaceByID sampleIsNotFound
        (twoPhaseOperation (none, some sampleNotFound)
          (some { Workspace := some sampleWorkspace }, none)) "ws-1" 1).1
      = (some sampleWorkspace, none)
    ∧ (FindLoggingConfigurationByWorkspaceID sampleIsNotFound
        (twoPhaseOperation (none, some sampleNotFound)
          (some { LoggingConfiguration := some sampleLogging }, none)) "ws-1" 1).1
      = (some sampleLogging, none) :=
  have h := finders_no_memoization sampleIsNotFound "ws-1"
    (FindScraperByID sampleIsNotFound
      (twoPhaseOperation (none, some sampleNotFound)
        (some { Scraper := some sampleScraper }, none)) "ws-1" 0).2 (0 : Nat)
    (twoPhaseOperation (none, some sampleNotFound)
      (some { Scraper := some sampleScraper }, none))
    (twoPhaseOperation (none, some sampleNotFound)
      (some { Workspace := some sampleWorkspace }, none))
    (twoPhaseOperation (none, some sampleNotFound)
      (some { LoggingConfiguration := some sampleLogging }, none))
    (constOperation (some { Scraper := some sampleScraper }, none))
    (constOperation (some { Workspace := some sampleWorkspace }, none))
    (constOperation (some { LoggingConfiguration := some sampleLogging }, none))
    rfl rfl rfl
  ⟨rfl, h.1.1, h.2.1.1, h.2.2.1⟩

/-- C15: with two workspaces, one aliased "prod-1" and one aliased "dev-1", on a
service whose alias filter lets "prod-1" through for the value "prod" and holds
"dev-1" back, `FindWorkspaces` called with alias "prod" returns the list made
of the "prod-1" entry alone, in whichever order the two workspaces exist. -/
theorem FindWorkspaces_alias_scenario (selects : String → String → Bool)
    (w1 w2 : WorkspaceSummary)
    (h1 : w1.Alias = some "prod-1") (h2 : w2.Alias = some "dev-1")
    (hs1 : selects "prod" "prod-1" = true) (hs2 : selects "prod" "dev-1" = false) :
    FindWorkspaces (listingService selects [w1, w2]) "prod" = ([some w1], none)
    ∧ FindWorkspaces (listingService selects [w2, w1]) "prod" = ([some w1], none) := by
  have hne : ("prod" : String) ≠ "" := by decide
  constructor <;>
    simp [FindWorkspaces, listingService, Pagination.run, pageFn_eq, validEntries, h1, h2,
      hs1, hs2, hne, List.filter_cons]

/-- Instance of C15 on the documented filter of the service (the alias begins
with the filter value). -/
theorem FindWorkspaces_alias_scenario_witness :
    FindWorkspaces
        (listingService beginsWith [sampleSummary "prod-1", sampleSummary "dev-1"]) "prod"
      = ([some (sampleSummary "prod-1")], none)
    ∧ FindWorkspaces
        (listingService beginsWith [sampleSummary "dev-1", sampleSummary "prod-1"]) "prod"
      = ([some (sampleSummary "prod-1")], none) :=
  FindWorkspaces_alias_scenario beginsWith (sampleSummary "prod-1") (sampleSummary "dev-1")
    rfl rfl (by decide) (by decide)

/-- C16: no function of `find.go` accesses a nil pointer. With every pointer
access made explicit, each finder on every provider response (nil output, nil
primary object, nil `Status`, nil error or not) and `FindWorkspaces` on every
sequence of pages (nil pages, nil or empty `Workspaces`, nil entries, failed
requests) completes without a panic, with the pair of the plain embedding: any
failure is in the returned error. -/
theorem find_go_nil_safe {σ : Type} (isResourceNotFound : GoError → Bool)
    (id : String) (s : σ)
    (connS : Operation σ DescribeScraperInput DescribeScraperOutput)
    (connW : Operation σ DescribeWorkspaceInput DescribeWorkspaceOutput)
    (connL : Operation σ DescribeLoggingConfigurationInput
      DescribeLoggingConfigurationOutput)
    (conn : ListWorkspacesInput → List PageEvent) (alias_ : String) :
    FindScraperByID.checked isResourceNotFound connS id s
        = Except.ok (FindScraperByID isResourceNotFound connS id s)
    ∧ FindWorkspaceByID.checked isResourceNotFound connW id s
        = Except.ok (FindWorkspaceByID isResourceNotFound connW id s)
    ∧ FindLoggingConfigurationByWorkspaceID.checked isResourceNotFound connL id s
        = Except.ok (FindLoggingConfigurationByWorkspaceID isResourceNotFound connL id s)
    ∧ FindWorkspaces.checked conn alias_ = Except.ok (FindWorkspaces conn alias_) := by
  refine ⟨?_, ?_, ?_, ?_⟩
  · rcases h : connS { ScraperId := some id } s with ⟨⟨out, err⟩, t⟩
    cases err with
    | some e =>
      by_cases hn : isResourceNotFound e = true <;>
        simp [FindScraperByID.checked, FindScraperByID, h, hn, pure, Except.pure]
    | none =>
      cases out with
      | none =>
        simp [FindScraperByID.checked, FindScraperByID, h, pure, Except.pure, bind, Except.bind]
      | some o =>
        cases ho : o.Scraper with
        | none =>
          simp [FindScraperByID.checked, FindScraperByID, h, ho, deref, pure, Except.pure, bind,
            Except.bind]
        | some d =>
          cases hd : d.Status with
          | none =>
            simp [FindScraperByID.checked, FindScraperByID, h, ho, hd, deref, pure, Except.pure, bind,
              Except.bind]
          | some st =>
            simp [FindScraperByID.checked, FindScraperByID, h, ho, hd, deref, pure, Except.pure, bind,
              Except.bind]
  · rcases h : connW { WorkspaceId := some id } s with ⟨⟨out, err⟩, t⟩
    cases err with
    | some e =>
      by_cases hn : isResourceNotFound e = true <;>
        simp [FindWorkspaceByID.checked, FindWorkspaceByID, h, hn, pure, Except.pure]
    | none =>
      cases out with
      | none =>
        simp [FindWorkspaceByID.checked, FindWorkspaceByID, h, pure, Except.pure, bind, Except.bind]
      | some o =>
        cases ho : o.Workspace with
        | none =>
          simp [FindWorkspaceByID.checked, FindWorkspaceByID, h, ho, deref, pure, Except.pure, bind,
            Except.bind]
        | some d =>
          cases hd : d.Status with
          | none =>
            simp [FindWorkspaceByID.checked, FindWorkspaceByID, h, ho, hd, deref, pure, Except.pure, bind,
              Except.bind]
          | some st =>
            simp [FindWorkspaceByID.checked, FindWorkspaceByID, h, ho, hd, deref, pure, Except.pure, bind,
              Except.bind]
  · rcases h : connL { WorkspaceId := some id } s with ⟨⟨out, err⟩, t⟩
    cases err with
    | some e =>
      by_cases hn : isResourceNotFound e = true <;>
        simp [FindLoggingConfigurationByWorkspaceID.checked, FindLoggingConfigurationByWorkspaceID, h, hn, pure, Except.pure]
    | none =>
      cases out with
      | none =>
        simp [FindLoggingConfigurationByWorkspaceID.checked, FindLoggingConfigurationByWorkspaceID, h, pure, Except.pure, bind, Except.bind]
      | some o =>
        cases ho : o.LoggingConfiguration with
        | none =>
          simp [FindLoggingConfigurationByWorkspaceID.checked, FindLoggingConfigurationByWorkspaceID, h, ho, deref, pure, Except.pure, bind,
            Except.bind]
        | some d =>
          cases hd : d.Status with
          | none =>
            simp [FindLoggingConfigurationByWorkspaceID.checked, FindLoggingConfigurationByWorkspaceID, h, ho, hd, deref, pure, Except.pure, bind,
              Except.bind]
          | some st =>
            simp [FindLoggingConfigurationByWorkspaceID.checked, FindLoggingConfigurationByWorkspaceID, h, ho, hd, deref, pure, Except.pure, bind,
              Except.bind]
  · simp only [FindWorkspaces.checked, FindWorkspaces, runChecked_eq, bind, Except.bind]
    split <;> rfl

/-- C17: the three finders are instances of one pattern. Each one returns the
pair the specification attaches to the outcome that the one classification
(`classify`: not-found first, then any other error, then a missing output,
primary object or status, else the descriptor) gives for the abstract view of
the response; so on responses with the same abstract view the three finders
reach the same outcome. -/
theorem finders_one_pattern {σ : Type} (isResourceNotFound : GoError → Bool)
    (id : String) (s : σ)
    (connS : Operation σ DescribeScraperInput DescribeScraperOutput)
    (connW : Operation σ DescribeWorkspaceInput DescribeWorkspaceOutput)
    (connL : Operation σ DescribeLoggingConfigurationInput
      DescribeLoggingConfigurationOutput) :
    (FindScraperByID isResourceNotFound connS id s).1
        = outcomeResult
            (classify (abstractResponse isResourceNotFound DescribeScraperOutput.Scraper
              (fun d => d.Status.isSome) (connS { ScraperId := some id } s).1))
            (connS { ScraperId := some id } s).1.2
            (Request.describeScraper { ScraperId := some id })
            ((connS { ScraperId := some id } s).1.1.bind DescribeScraperOutput.Scraper)
    ∧ (FindWorkspaceByID isResourceNotFound connW id s).1
        = outcomeResult
            (classify (abstractResponse isResourceNotFound DescribeWorkspaceOutput.Workspace
              (fun d => d.Status.isSome) (connW { WorkspaceId := some id } s).1))
            (connW { WorkspaceId := some id } s).1.2
            (Request.describeWorkspace { WorkspaceId := some id })
            ((connW { WorkspaceId := some id } s).1.1.bind DescribeWorkspaceOutput.Workspace)
    ∧ (FindLoggingConfigurationByWorkspaceID isResourceNotFound connL id s).1
        = outcomeResult
            (classify (abstractResponse isResourceNotFound
              DescribeLoggingConfigurationOutput.LoggingConfiguration
              (fun d => d.Status.isSome) (connL { WorkspaceId := some id } s).1))
            (connL { WorkspaceId := some id } s).1.2
            (Request.describeLoggingConfiguration { WorkspaceId := some id })
            ((connL { WorkspaceId := some id } s).1.1.bind
              DescribeLoggingConfigurationOutput.LoggingConfiguration) := by
  refine ⟨?_, ?_, ?_⟩
  · rcases h : connS { ScraperId := some id } s with ⟨⟨out, err⟩, t⟩
    cases err with
    | some e =>
      by_cases hn : isResourceNotFound e = true <;>
        simp [FindScraperByID, h, hn, abstractResponse, classify, outcomeResult]
    | none =>
      cases out with
      | none => simp [FindScraperByID, h, abstractResponse, classify, outcomeResult]
      | some o =>
        cases ho : o.Scraper with
        | none => simp [FindScraperByID, h, ho, abstractResponse, classify, outcomeResult]
        | some d =>
          cases hd : d.Status with
          | none => simp [FindScraperByID, h, ho, hd, abstractResponse, classify, outcomeResult]
          | some st => simp [FindScraperByID, h, ho, hd, abstractResponse, classify, outcomeResult]
  · rcases h : connW { WorkspaceId := some id } s with ⟨⟨out, err⟩, t⟩
    cases err with
    | some e =>
      by_cases hn : isResourceNotFound e = true <;>
        simp [FindWorkspaceByID, h, hn, abstractResponse, classify, outcomeResult]
    | none =>
      cases out with
      | none => simp [FindWorkspaceByID, h, abstractResponse, classify, outcomeResult]
      | some o =>
        cases ho : o.Workspace with
        | none => simp [FindWorkspaceByID, h, ho, abstractResponse, classify, outcomeResult]
        | some d =>
          cases hd : d.Status with
          | none => simp [FindWorkspaceByID, h, ho, hd, abstractResponse, classify, outcomeResult]
          | some st => simp [FindWorkspaceByID, h, ho, hd, abstractResponse, classify, outcomeResult]
  · rcases h : connL { WorkspaceId := some id } s with ⟨⟨out, err⟩, t⟩
    cases err with
    | some e =>
      by_cases hn : isResourceNotFound e = true <;>
        simp [FindLoggingConfigurationByWorkspaceID, h, hn, abstractResponse, classify, outcomeResult]
    | none =>
      cases out with
      | none => simp [FindLoggingConfigurationByWorkspaceID, h, abstractResponse, classify, outcomeResult]
      | some o =>
        cases ho : o.LoggingConfiguration with
        | none => simp [FindLoggingConfigurationByWorkspaceID, h, ho, abstractResponse, classify, outcomeResult]
        | some d =>
          cases hd : d.Status with
          | none => simp [FindLoggingConfigurationByWorkspaceID, h, ho, hd, abstractResponse, classify, outcomeResult]
          | some st => simp [FindLoggingConfigurationByWorkspaceID, h, ho, hd, abstractResponse, classify, outcomeResult]

/-- C23: `FindWorkspaces` does not select by alias itself. Two calls, with any
two aliases, whose requests are answered with the same sequence of pages and the
same paging outcome return the same list and the same error; the alias reaches
the result through the request only. -/
theorem FindWorkspaces_alias_only_in_request
    (conn1 conn2 : ListWorkspacesInput → List PageEvent) (a1 a2 : String)
    (h : conn1 (listRequest a1) = conn2 (listRequest a2)) :
    FindWorkspaces conn1 a1 = FindWorkspaces conn2 a2 := by
  have e1 : FindWorkspaces conn1 a1 = FindWorkspaces (fun _ => conn1 (listRequest a1)) a1 := by
    by_cases h1 : a1 = "" <;> simp [FindWorkspaces, listRequest, h1]
  have e2 : FindWorkspaces conn2 a2 = FindWorkspaces (fun _ => conn2 (listRequest a2)) a2 := by
    by_cases h2 : a2 = "" <;> simp [FindWorkspaces, listRequest, h2]
  rw [e1, e2, h]
  simp [FindWorkspaces]

/-- Instance of C23: the same pages, holding entries aliased "a", "b" and "c",
delivered for the alias "prod" and for no alias; both calls return all three
entries. -/
theorem FindWorkspaces_alias_only_in_request_witness :
    FindWorkspaces (fun _ => sampleScript) "prod" = FindWorkspaces (fun _ => sampleScript) ""
    ∧ FindWorkspaces (fun _ => sampleScript) "prod"
      = ([some (sampleSummary "a"), some (sampleSummary "b"), some (sampleSummary "c")],
          none) :=
  ⟨FindWorkspaces_alias_only_in_request (fun _ => sampleScript) (fun _ => sampleScript)
    "prod" "" rfl, rfl⟩

end Amp

namespace StorageGateway

open Amp

/-! ## Theorems about `gateway_test.go` -/

/-! ### Auxiliary facts about the sweeper -/

theorem deleteEach_ok {σ : Type} (isGatewayNotFound : GoError → Bool)
    (del : Operation σ DeleteGatewayInput DeleteGatewayOutput)
    (gs : List (Option GatewayInfo)) (h : gs.all Option.isSome = true) (w : SweepState σ) :
    ∃ w', sweepGateways.deleteEach isGatewayNotFound del gs w = Except.ok w' := by
  induction gs generalizing w with
  | nil => exact ⟨w, rfl⟩
  | cons g rest ih =>
    cases g with
    | none => simp at h
    | some g =>
      have hr : rest.all Option.isSome = true := by
        simp only [List.all_cons, Bool.and_eq_true] at h
        exact h.2
      simp only [sweepGateways.deleteEach, deref, bind, Except.bind]
      split
      · split
        · exact ih hr _
        · exact ih hr _
      · exact ih hr _

theorem deleteEach_logged {σ : Type} (isGatewayNotFound : GoError → Bool)
    (del : Operation σ DeleteGatewayInput DeleteGatewayOutput)
    (gs : List (Option GatewayInfo)) (h : gs.all Option.isSome = true)
    (w : SweepState (σ × List DeleteGatewayInput)) :
    ∃ w', sweepGateways.deleteEach isGatewayNotFound (logged del) gs w = Except.ok w'
      ∧ w'.service.2 = w.service.2 ++ gs.filterMap (Option.map deleteRequest) := by
  induction gs generalizing w with
  | nil => exact ⟨w, rfl, by simp⟩
  | cons g rest ih =>
    cases g with
    | none => simp at h
    | some g =>
      have hr : rest.all Option.isSome = true := by
        simp only [List.all_cons, Bool.and_eq_true] at h
        exact h.2
      simp only [sweepGateways.deleteEach, deref, bind, Except.bind]
      split
      · split
        · obtain ⟨w', h1, h2⟩ := ih hr
            { service := (logged del { GatewayARN := g.GatewayARN } w.service).2,
              log := w.log ++ [LogLine.deleting (g.GatewayName.getD "")] }
          exact ⟨w', h1, by simp [h2, logged, deleteRequest]⟩
        · rename_i err _ _
          obtain ⟨w', h1, h2⟩ := ih hr
            { service := (logged del { GatewayARN := g.GatewayARN } w.service).2,
              log := w.log ++ [LogLine.deleting (g.GatewayName.getD "")]
                ++ [LogLine.deleteFailed (g.GatewayName.getD "") err] }
          exact ⟨w', h1, by simp [h2, logged, deleteRequest]⟩
      · obtain ⟨w', h1, h2⟩ := ih hr
          { service := (logged del { GatewayARN := g.GatewayARN } w.service).2,
            log := w.log ++ [LogLine.deleting (g.GatewayName.getD "")] }
        exact ⟨w', h1, by simp [h2, logged, deleteRequest]⟩

theorem pageFn_ok {σ : Type} (isGatewayNotFound : GoError → Bool)
    (del : Operation σ DeleteGatewayInput DeleteGatewayOutput)
    (pg : ListGatewaysOutput) (h : pg.Gateways.all Option.isSome = true)
    (w : SweepState σ) (lastPage : Bool) :
    ∃ w' c, sweepGateways.pageFn isGatewayNotFound del w (some pg) lastPage
        = Except.ok (w', c) ∧ (c && !lastPage) = !lastPage := by
  by_cases he : pg.Gateways.length = 0
  · exact ⟨{ w with log := w.log ++ [LogLine.noGateways] }, true,
      by simp [sweepGateways.pageFn, deref, bind, Except.bind, he, pure, Except.pure],
      by simp⟩
  · obtain ⟨w', hw⟩ := deleteEach_ok isGatewayNotFound del pg.Gateways h w
    exact ⟨w', !lastPage, by simp [sweepGateways.pageFn, deref, bind, Except.bind, he, hw,
      pure, Except.pure], by simp⟩

theorem pageFn_logged {σ : Type} (isGatewayNotFound : GoError → Bool)
    (del : Operation σ DeleteGatewayInput DeleteGatewayOutput)
    (pg : ListGatewaysOutput) (h : pg.Gateways.all Option.isSome = true)
    (w : SweepState (σ × List DeleteGatewayInput)) (lastPage : Bool) :
    ∃ w' c, sweepGateways.pageFn isGatewayNotFound (logged del) w (some pg) lastPage
        = Except.ok (w', c) ∧ (c && !lastPage) = !lastPage
      ∧ w'.service.2 = w.service.2 ++ pg.Gateways.filterMap (Option.map deleteRequest) := by
  by_cases he : pg.Gateways.length = 0
  · have hnil : pg.Gateways = [] := List.length_eq_zero.mp he
    exact ⟨{ w with log := w.log ++ [LogLine.noGateways] }, true,
      by simp [sweepGateways.pageFn, deref, bind, Except.bind, he, pure, Except.pure],
      by simp, by simp [hnil]⟩
  · obtain ⟨w', hw, hreq⟩ := deleteEach_logged isGatewayNotFound del pg.Gateways h w
    exact ⟨w', !lastPage, by simp [sweepGateways.pageFn, deref, bind, Except.bind, he, hw,
      pure, Except.pure], by simp, hreq⟩

theorem pages_ok {σ : Type} (isGatewayNotFound : GoError → Bool)
    (del : Operation σ DeleteGatewayInput DeleteGatewayOutput)
    (script : List GatewayPageEvent) (hwf : ∀ ev ∈ script, ev.noNil = true)
    (w : SweepState σ) :
    ∃ w', ListGatewaysPages (sweepGateways.pageFn isGatewayNotFound del) script w
      = Except.ok (w', listingError script) := by
  induction script generalizing w with
  | nil => exact ⟨w, rfl⟩
  | cons ev rest ih =>
    have hrest : ∀ ev ∈ rest, ev.noNil = true := fun e he => hwf e (List.mem_cons_of_mem _ he)
    have hev := hwf ev (List.mem_cons_self _ _)
    cases ev with
    | fail e => exact ⟨w, rfl⟩
    | page p lastPage =>
      cases p with
      | none => simp [GatewayPageEvent.noNil] at hev
      | some pg =>
        obtain ⟨w1, c, h1, hc⟩ := pageFn_ok isGatewayNotFound del pg hev w lastPage
        cases lastPage with
        | true =>
          exact ⟨w1, by simp [ListGatewaysPages, h1, bind, Except.bind, listingError, pure,
            Except.pure]⟩
        | false =>
          obtain ⟨w2, h2⟩ := ih hrest w1
          have hc' : c = true := by simpa using hc
          exact ⟨w2, by simp [ListGatewaysPages, h1, bind, Except.bind, listingError, hc',
            h2]⟩

theorem pages_logged {σ : Type} (isGatewayNotFound : GoError → Bool)
    (del : Operation σ DeleteGatewayInput DeleteGatewayOutput)
    (script : List GatewayPageEvent) (hwf : ∀ ev ∈ script, ev.noNil = true)
    (w : SweepState (σ × List DeleteGatewayInput)) :
    ∃ w', ListGatewaysPages (sweepGateways.pageFn isGatewayNotFound (logged del)) script w
        = Except.ok (w', listingError script)
      ∧ w'.service.2
        = w.service.2 ++ (gatewaysUpToLast script).filterMap (Option.map deleteRequest) := by
  induction script generalizing w with
  | nil => exact ⟨w, rfl, by simp [gatewaysUpToLast]⟩
  | cons ev rest ih =>
    have hrest : ∀ ev ∈ rest, ev.noNil = true := fun e he => hwf e (List.mem_cons_of_mem _ he)
    have hev := hwf ev (List.mem_cons_self _ _)
    cases ev with
    | fail e => exact ⟨w, rfl, by simp [gatewaysUpToLast]⟩
    | page p lastPage =>
      cases p with
      | none => simp [GatewayPageEvent.noNil] at hev
      | some pg =>
        obtain ⟨w1, c, h1, hc, hq⟩ := pageFn_logged isGatewayNotFound del pg hev w lastPage
        cases lastPage with
        | true =>
          exact ⟨w1, by simp [ListGatewaysPages, h1, bind, Except.bind, listingError, pure,
            Except.pure], by simp [gatewaysUpToLast, hq]⟩
        | false =>
          obtain ⟨w2, h2, hq2⟩ := ih hrest w1
          have hc' : c = true := by simpa using hc
          exact ⟨w2, by simp [ListGatewaysPages, h1, bind, Except.bind, listingError, hc',
            h2], by simp [gatewaysUpToLast, hq2, hq]⟩

theorem gatewaysUpToLast_all {script : List GatewayPageEvent}
    (hwf : ∀ ev ∈ script, ev.noNil = true) :
    (gatewaysUpToLast script).all Option.isSome = true := by
  induction script with
  | nil => rfl
  | cons ev rest ih =>
    have hrest : ∀ ev ∈ rest, ev.noNil = true := fun e he => hwf e (List.mem_cons_of_mem _ he)
    have hev := hwf ev (List.mem_cons_self _ _)
    cases ev with
    | fail e => rfl
    | page p lastPage =>
      cases p with
      | none => simp [GatewayPageEvent.noNil] at hev
      | some pg =>
        simp only [GatewayPageEvent.noNil] at hev
        cases lastPage with
        | true => simpa [gatewaysUpToLast] using hev
        | false =>
          have := ih hrest
          simp only [gatewaysUpToLast, Bool.false_eq_true, if_false, List.all_append,
            Bool.and_eq_true]
          exact ⟨hev, this⟩

theorem filterMap_length_of_all {α β : Type} (f : α → β) (l : List (Option α))
    (h : l.all Option.isSome = true) :
    (l.filterMap (Option.map f)).length = l.length := by
  induction l with
  | nil => rfl
  | cons a l ih =>
    cases a with
    | none => simp at h
    | some a =>
      simp only [List.all_cons, Bool.and_eq_true] at h
      simp [ih h.2]

theorem pages_reached {τ : Type}
    (fn : τ → Option ListGatewaysOutput → Bool → Except Panic (τ × Bool))
    (script : List GatewayPageEvent) (w : τ) :
    ListGatewaysPages fn script w = ListGatewaysPages fn (reachedEvents script) w := by
  induction script generalizing w with
  | nil => rfl
  | cons ev rest ih =>
    cases ev with
    | fail e => rfl
    | page p lastPage =>
      cases lastPage with
      | true =>
        simp only [reachedEvents, if_true, ListGatewaysPages, bind, Except.bind]
        cases fn w p true with
        | error e => rfl
        | ok r => simp
      | false =>
        simp only [reachedEvents, Bool.false_eq_true, if_false, ListGatewaysPages, bind,
          Except.bind]
        cases fn w p false with
        | error e => rfl
        | ok r =>
          simp only [Bool.not_false, Bool.and_true]
          cases r.2 with
          | true => simpa using ih r.1
          | false => rfl

theorem gatewaysUpToLast_reached (script : List GatewayPageEvent) :
    gatewaysUpToLast (reachedEvents script) = gatewaysUpToLast script := by
  induction script with
  | nil => rfl
  | cons ev rest ih =>
    cases ev with
    | fail e => rfl
    | page p lastPage =>
      cases lastPage with
      | true => simp [reachedEvents, gatewaysUpToLast]
      | false => simp [reachedEvents, gatewaysUpToLast, ih]

/-! ### The claims about the checks and the sweeper -/

/-- C18, what the code does where the claim fails: with one gateway resource in
the state whose describe call succeeds (the gateway still exists),
`testAccCheckGatewayDestroy` returns nil; and with two gateway resources, the
first one gone and the second one still there, it returns nil after the first
describe call, without a call for the second. -/
theorem testAccCheckGatewayDestroy_passes_on_existing_gateway :
    testAccCheckGatewayDestroy sampleIsGatewayNotFound
        (constOperation (some sampleGatewayInformation, none)) sampleState 0 = (none, 1)
    ∧ testAccCheckGatewayDestroy sampleIsGatewayNotFound
        (twoPhaseOperation (none, some sampleGatewayNotFound)
          (some sampleGatewayInformation, none)) sampleState2 0 = (none, 1) := by
  constructor <;> decide

/-- C19, counterexample: the listing delivers one gateway, its `DeleteGateway`
call fails with an error that is not gateway-not-found, and `sweepGateways`
returns nil; the failure is in the log only. -/
theorem sweepGateways_delete_failure_counterexample :
    sampleIsGatewayNotFound sampleInternalError = false
    ∧ sweepGateways
        (fun _ => (some { ListGateways := fun _ => sampleListing1,
                          DeleteGateway := constOperation (none, some sampleInternalError) },
                   none))
        sampleIsGatewayNotFound (fun _ => false) "us-west-2" { service := 0, log := [] }
      = Except.ok (none,
          { service := 1,
            log := [LogLine.deleting "sgw-1",
                    LogLine.deleteFailed "sgw-1" sampleInternalError] }) :=
  ⟨by decide, rfl⟩

/-- C19 as amended: no `DeleteGateway` failure is returned by `sweepGateways`.
When the client is obtained and the listing (of present pages with present
entries) ends without error, `sweepGateways` returns nil whatever the
`DeleteGateway` calls answered; for each gateway the loop goes on with the
remaining ones after writing the "Deleting" line and, only for a failure that
is not gateway-not-found, the "Failed to delete" line. -/
theorem sweepGateways_delete_failures_not_returned {σ : Type}
    (isGatewayNotFound SkipSweepError : GoError → Bool) (region : String)
    (conn : Conn σ) (w : SweepState σ)
    (hwf : ∀ ev ∈ conn.ListGateways {}, ev.noNil = true)
    (hlist : listingError (conn.ListGateways {}) = none) :
    (sweepGateways (fun _ => (some conn, none)) isGatewayNotFound SkipSweepError region w).map
        Prod.fst = Except.ok none
    ∧ ∀ (g : GatewayInfo) (rest : List (Option GatewayInfo)) (v : SweepState σ),
        sweepGateways.deleteEach isGatewayNotFound conn.DeleteGateway (some g :: rest) v
          = sweepGateways.deleteEach isGatewayNotFound conn.DeleteGateway rest
              { service := (conn.DeleteGateway (deleteRequest g) v.service).2,
                log := v.log ++ [LogLine.deleting (g.GatewayName.getD "")]
                  ++ (match (conn.DeleteGateway (deleteRequest g) v.service).1.2 with
                      | some err =>
                        if isGatewayNotFound err then []
                        else [LogLine.deleteFailed (g.GatewayName.getD "") err]
                      | none => []) } := by
  constructor
  · obtain ⟨w', hw⟩ := pages_ok isGatewayNotFound conn.DeleteGateway (conn.ListGateways {})
      hwf w
    simp [sweepGateways, hw, hlist, bind, Except.bind, pure, Except.pure, Except.map]
  · intro g rest v
    simp only [sweepGateways.deleteEach, deref, bind, Except.bind, deleteRequest]
    split
    · split <;> simp [*]
    · simp [*]

/-- Instance of the amended C19: three gateways on two pages, the first delete
failing with an internal error, the second reporting the gateway as gone. -/
theorem sweepGateways_delete_failures_not_returned_witness :
    (sweepGateways
        (fun _ => (some { ListGateways := fun _ => sampleListing3,
                          DeleteGateway := sampleDelete }, none))
        sampleIsGatewayNotFound (fun _ => false) "us-west-2"
        { service := 0, log := [] }).map Prod.fst = Except.ok none :=
  (sweepGateways_delete_failures_not_returned sampleIsGatewayNotFound (fun _ => false)
    "us-west-2" { ListGateways := fun _ => sampleListing3, DeleteGateway := sampleDelete }
    { service := 0, log := [] } (by decide) (by decide)).1

/-- C20, counterexample: the first delivered page holds a gateway followed by a
nil entry and the second page holds a gateway. `sweepGateways` ends in a nil
pointer panic on the nil entry: the one request issued before it is the delete
of the first gateway (second part), and the gateway of the second page gets no
delete request. -/
theorem sweepGateways_nil_entry_counterexample :
    sweepGateways
        (fun _ => (some { ListGateways := fun _ => sampleHoleListing,
                          DeleteGateway := logged sampleDelete }, none))
        sampleIsGatewayNotFound (fun _ => false) "us-west-2"
        { service := (0, []), log := [] } = Except.error Panic.nilDereference
    ∧ (sweepGateways.deleteEach sampleIsGatewayNotFound (logged sampleDelete)
        [some (sampleGateway "sgw-1")] { service := (0, []), log := [] }).map
        (fun v => v.service.2)
      = Except.ok [{ GatewayARN := some "arn:aws:storagegateway:gateway/sgw-1" }] :=
  ⟨rfl, rfl⟩

/-- C20 as amended: when the pages the listing delivers are present and so are
all their gateway entries, `sweepGateways` issues one `DeleteGateway` request
per gateway entry of the delivered pages, in listing order, each with the
`GatewayARN` of its entry, whatever the `DeleteGateway` calls answer: the
requests recorded by the connection are those of the entries, and there are as
many as entries. -/
theorem sweepGateways_deletes_each_gateway {σ : Type}
    (isGatewayNotFound SkipSweepError : GoError → Bool) (region : String)
    (del : Operation σ DeleteGatewayInput DeleteGatewayOutput)
    (script : List GatewayPageEvent) (s : σ) (log : List LogLine)
    (hwf : ∀ ev ∈ reachedEvents script, ev.noNil = true) :
    (sweepGateways
        (fun _ => (some { ListGateways := fun _ => script, DeleteGateway := logged del },
                   none))
        isGatewayNotFound SkipSweepError region { service := (s, []), log := log }).map
        (fun r => r.2.service.2)
      = Except.ok ((gatewaysUpToLast script).filterMap (Option.map deleteRequest))
    ∧ ((gatewaysUpToLast script).filterMap (Option.map deleteRequest)).length
      = (gatewaysUpToLast script).length := by
  constructor
  · obtain ⟨w', hw, hq⟩ := pages_logged isGatewayNotFound del (reachedEvents script) hwf
      { service := (s, []), log := log }
    simp only [List.nil_append, gatewaysUpToLast_reached] at hq
    simp only [sweepGateways]
    rw [pages_reached, hw]
    simp only [bind, Except.bind]
    cases listingError (reachedEvents script) with
    | none => simp [pure, Except.pure, Except.map, hq]
    | some e => by_cases hs : SkipSweepError e = true <;>
        simp [pure, Except.pure, Except.map, hq, hs]
  · rw [← gatewaysUpToLast_reached]
    exact filterMap_length_of_all _ _ (gatewaysUpToLast_all hwf)

/-- Instance of the amended C20: three gateways on two pages; the delete of the
first one fails, the second one is reported gone, and all three requests are
issued. -/
theorem sweepGateways_deletes_each_gateway_witness :
    (sweepGateways
        (fun _ => (some { ListGateways := fun _ => sampleListing3,
                          DeleteGateway := logged sampleDelete }, none))
        sampleIsGatewayNotFound (fun _ => false) "us-west-2"
        { service := (0, []), log := [] }).map (fun r => r.2.service.2)
      = Except.ok
          [{ GatewayARN := some "arn:aws:storagegateway:gateway/sgw-1" },
           { GatewayARN := some "arn:aws:storagegateway:gateway/sgw-2" },
           { GatewayARN := some "arn:aws:storagegateway:gateway/sgw-3" }] :=
  (sweepGateways_deletes_each_gateway sampleIsGatewayNotFound (fun _ => false) "us-west-2"
    sampleDelete sampleListing3 0 [] (by decide)).1

/-! ### Auxiliary facts for the later claims -/

theorem deleteEach_all_of_ok {σ : Type} (isGatewayNotFound : GoError → Bool)
    (del : Operation σ DeleteGatewayInput DeleteGatewayOutput)
    (gs : List (Option GatewayInfo)) (w w' : SweepState σ)
    (h : sweepGateways.deleteEach isGatewayNotFound del gs w = Except.ok w') :
    gs.all Option.isSome = true := by
  induction gs generalizing w with
  | nil => rfl
  | cons g rest ih =>
    cases g with
    | none => simp [sweepGateways.deleteEach, deref, bind, Except.bind] at h
    | some g =>
      simp only [sweepGateways.deleteEach, deref, bind, Except.bind] at h
      simp only [List.all_cons, Option.isSome_some, Bool.true_and]
      split at h
      · split at h
        · exact ih _ h
        · exact ih _ h
      · exact ih _ h

theorem pageFn_answer {σ : Type} (isGatewayNotFound : GoError → Bool)
    (del : Operation σ DeleteGatewayInput DeleteGatewayOutput)
    (pg : ListGatewaysOutput) (hne : pg.Gateways ≠ [])
    (hall : pg.Gateways.all Option.isSome = true) (w : SweepState σ) (lastPage : Bool) :
    ∃ w', sweepGateways.pageFn isGatewayNotFound del w (some pg) lastPage
      = Except.ok (w', !lastPage) := by
  have he : ¬ pg.Gateways.length = 0 := fun h => hne (List.length_eq_zero.mp h)
  obtain ⟨w', hw⟩ := deleteEach_ok isGatewayNotFound del pg.Gateways hall w
  exact ⟨w', by simp [sweepGateways.pageFn, deref, bind, Except.bind, he, hw, pure,
    Except.pure]⟩

/-! ### Further claims about the sweeper and the checks -/

/-- C21, counterexample: on an absent page, and on a page whose second entry is
nil, the page callback of `sweepGateways` panics with a nil pointer access. -/
theorem sweepGateways_pageFn_nil_counterexample :
    sweepGateways.pageFn sampleIsGatewayNotFound sampleDelete { service := 0, log := [] }
        none false = Except.error Panic.nilDereference
    ∧ sweepGateways.pageFn sampleIsGatewayNotFound sampleDelete { service := 0, log := [] }
        (some sampleHolePage) false = Except.error Panic.nilDereference :=
  ⟨rfl, rfl⟩

/-- C21 as amended: the page callback of `sweepGateways` completes without a
panic exactly on the pages that are present and whose gateway entries are all
present; it accesses the page and every entry without a nil test. -/
theorem sweepGateways_pageFn_completes_iff {σ : Type} (isGatewayNotFound : GoError → Bool)
    (del : Operation σ DeleteGatewayInput DeleteGatewayOutput) (w : SweepState σ)
    (page : Option ListGatewaysOutput) (lastPage : Bool) :
    (∃ r, sweepGateways.pageFn isGatewayNotFound del w page lastPage = Except.ok r)
      ↔ ∃ pg, page = some pg ∧ pg.Gateways.all Option.isSome = true := by
  constructor
  · rintro ⟨r, hr⟩
    cases page with
    | none => simp [sweepGateways.pageFn, deref, bind, Except.bind] at hr
    | some pg =>
      refine ⟨pg, rfl, ?_⟩
      by_cases he : pg.Gateways.length = 0
      · rw [List.length_eq_zero.mp he]
        rfl
      · simp only [sweepGateways.pageFn, deref, bind, Except.bind, he, if_false] at hr
        cases hd : sweepGateways.deleteEach isGatewayNotFound del pg.Gateways w with
        | error e => simp [hd] at hr
        | ok w' => exact deleteEach_all_of_ok isGatewayNotFound del pg.Gateways w w' hd
  · rintro ⟨pg, rfl, hall⟩
    obtain ⟨w', c, h, _⟩ := pageFn_ok isGatewayNotFound del pg hall w lastPage
    exact ⟨(w', c), h⟩

/-- C22: `testAccCheckGatewayExists` on a connection that counts its calls. It
returns nil exactly when the named resource is in the state and its describe
call yields a nil error and a present output. The run is one of four cases:
the resource is missing, there is no call (the count is unchanged), the error
is "Not found" and the caller's variable is unchanged; or the one describe call
fails, its error is returned as it is and the variable is unchanged; or the
call yields neither error nor output, an error is returned and the variable is
unchanged; or the call yields an output, nil is returned and the variable holds
that output. -/
theorem testAccCheckGatewayExists_cases {σ : Type}
    (conn : Operation σ DescribeGatewayInformationInput DescribeGatewayInformationOutput)
    (resourceName : String) (resources : List (String × ResourceState)) (s : σ) (n : Nat)
    (gateway : DescribeGatewayInformationOutput) :
    ((testAccCheckGatewayExists (counted conn) resourceName resources (s, n) gateway).1 = none
      ↔ ∃ rs out, resources.lookup resourceName = some rs
          ∧ (conn { GatewayARN := some rs.Primary.ID } s).1 = (some out, none))
    ∧ ((resources.lookup resourceName = none
        ∧ testAccCheckGatewayExists (counted conn) resourceName resources (s, n) gateway
          = (some (GoError.errorf ("Not found: " ++ resourceName)), (s, n), gateway))
      ∨ ∃ rs, resources.lookup resourceName = some rs
        ∧ ((∃ e, (conn { GatewayARN := some rs.Primary.ID } s).1.2 = some e
              ∧ testAccCheckGatewayExists (counted conn) resourceName resources (s, n) gateway
                = (some e, ((conn { GatewayARN := some rs.Primary.ID } s).2, n + 1),
                    gateway))
          ∨ ((conn { GatewayARN := some rs.Primary.ID } s).1 = (none, none)
              ∧ testAccCheckGatewayExists (counted conn) resourceName resources (s, n) gateway
                = (some (GoError.errorf
                      ("Gateway " ++ rs.Primary.ID.quote ++ " does not exist")),
                    ((conn { GatewayARN := some rs.Primary.ID } s).2, n + 1), gateway))
          ∨ (∃ out, (conn { GatewayARN := some rs.Primary.ID } s).1 = (some out, none)
              ∧ testAccCheckGatewayExists (counted conn) resourceName resources (s, n) gateway
                = (none, ((conn { GatewayARN := some rs.Primary.ID } s).2, n + 1), out)))) := by
  cases hl : resources.lookup resourceName with
  | none => simp [testAccCheckGatewayExists, hl]
  | some rs =>
    rcases hc : conn { GatewayARN := some rs.Primary.ID } s with ⟨⟨out, err⟩, t⟩
    cases err with
    | some e => simp [testAccCheckGatewayExists, hl, counted, hc]
    | none =>
      cases out with
      | none => simp [testAccCheckGatewayExists, hl, counted, hc]
      | some o => simp [testAccCheckGatewayExists, hl, counted, hc]

/-- C24: whenever the paging call of `sweepGateways` returns, the result is
fixed by its error and the skip predicate: nil when the listing succeeded, nil
when the listing error is skippable, and otherwise the listing error wrapped
behind "Error retrieving Storage Gateway Gateways: ". -/
theorem sweepGateways_listing_result {σ : Type}
    (isGatewayNotFound SkipSweepError : GoError → Bool) (region : String)
    (conn : Conn σ) (w w' : SweepState σ) (e : Option GoError)
    (h : ListGatewaysPages (sweepGateways.pageFn isGatewayNotFound conn.DeleteGateway)
      (conn.ListGateways {}) w = Except.ok (w', e)) :
    (sweepGateways (fun _ => (some conn, none)) isGatewayNotFound SkipSweepError region w).map
        Prod.fst
      = Except.ok
          (match e with
            | none => none
            | some err =>
              if SkipSweepError err then none
              else some (GoError.wrapf "Error retrieving Storage Gateway Gateways: " err)) := by
  simp only [sweepGateways, h, bind, Except.bind]
  cases e with
  | none => rfl
  | some err => by_cases hs : SkipSweepError err = true <;> simp [hs, pure, Except.pure, Except.map]

/-- Instance of C24: a listing whose second request fails, once with a skip
predicate that accepts the error and once with one that does not, and a listing
that succeeds. -/
theorem sweepGateways_listing_result_witness :
    (sweepGateways
        (fun _ => (some { ListGateways := fun _ => sampleFailingListing,
                          DeleteGateway := sampleDelete }, none))
        sampleIsGatewayNotFound (fun _ => true) "us-west-2"
        { service := 0, log := [] }).map Prod.fst = Except.ok none
    ∧ (sweepGateways
        (fun _ => (some { ListGateways := fun _ => sampleFailingListing,
                          DeleteGateway := sampleDelete }, none))
        sampleIsGatewayNotFound (fun _ => false) "us-west-2"
        { service := 0, log := [] }).map Prod.fst
      = Except.ok (some (GoError.wrapf "Error retrieving Storage Gateway Gateways: "
          sampleInternalError))
    ∧ (sweepGateways
        (fun _ => (some { ListGateways := fun _ => sampleListing3,
                          DeleteGateway := sampleDelete }, none))
        sampleIsGatewayNotFound (fun _ => false) "us-west-2"
        { service := 0, log := [] }).map Prod.fst = Except.ok none :=
  ⟨sweepGateways_listing_result sampleIsGatewayNotFound (fun _ => true) "us-west-2"
      { ListGateways := fun _ => sampleFailingListing, DeleteGateway := sampleDelete }
      { service := 0, log := [] }
      { service := 1,
        log := [LogLine.deleting "sgw-1", LogLine.deleteFailed "sgw-1" sampleInternalError] }
      (some sampleInternalError) rfl,
   sweepGateways_listing_result sampleIsGatewayNotFound (fun _ => false) "us-west-2"
      { ListGateways := fun _ => sampleFailingListing, DeleteGateway := sampleDelete }
      { service := 0, log := [] }
      { service := 1,
        log := [LogLine.deleting "sgw-1", LogLine.deleteFailed "sgw-1" sampleInternalError] }
      (some sampleInternalError) rfl,
   sweepGateways_listing_result sampleIsGatewayNotFound (fun _ => false) "us-west-2"
      { ListGateways := fun _ => sampleListing3, DeleteGateway := sampleDelete }
      { service := 0, log := [] }
      { service := 3,
        log := [LogLine.deleting "sgw-1", LogLine.deleteFailed "sgw-1" sampleInternalError,
                LogLine.deleting "sgw-2", LogLine.deleting "sgw-3"] }
      none rfl⟩

theorem destroy_requests {σ : Type} (IsErrGatewayNotFound : GoError → Bool)
    (conn : Operation σ DescribeGatewayInformationInput DescribeGatewayInformationOutput)
    (resources : List (String × ResourceState)) (s : σ)
    (log : List DescribeGatewayInformationInput) :
    ∃ l, (testAccCheckGatewayDestroy IsErrGatewayNotFound (logged conn) resources
        (s, log)).2.2 = log ++ l ∧ l <+: gatewayRequests resources := by
  induction resources generalizing s log with
  | nil => exact ⟨[], by simp [testAccCheckGatewayDestroy], List.nil_prefix⟩
  | cons r rest ih =>
    rcases r with ⟨name, rs⟩
    by_cases ht : rs.Type_ = "aws_storagegateway_gateway"
    · have hg : gatewayRequests ((name, rs) :: rest)
          = { GatewayARN := some rs.Primary.ID } :: gatewayRequests rest := by
        simp [gatewayRequests, ht]
      rcases hc : conn { GatewayARN := some rs.Primary.ID } s with ⟨⟨out, err⟩, t⟩
      cases err with
      | some e =>
        refine ⟨[{ GatewayARN := some rs.Primary.ID }], ?_, ?_⟩
        · by_cases hn : IsErrGatewayNotFound e = true <;>
            simp [testAccCheckGatewayDestroy, ht, logged, hc, hn]
        · rw [hg]
          exact List.prefix_iff_eq_append.mpr (by simp)
      | none =>
        obtain ⟨l, h1, h2⟩ := ih t (log ++ [{ GatewayARN := some rs.Primary.ID }])
        refine ⟨{ GatewayARN := some rs.Primary.ID } :: l, ?_, ?_⟩
        · simp [testAccCheckGatewayDestroy, ht, logged, hc, h1]
        · rw [hg]
          exact (List.prefix_cons_inj _).mpr h2
    · have hg : gatewayRequests ((name, rs) :: rest) = gatewayRequests rest := by
        simp [gatewayRequests, ht]
      obtain ⟨l, h1, h2⟩ := ih s log
      refine ⟨l, ?_, ?_⟩
      · simp [testAccCheckGatewayDestroy, ht, h1]
      · rw [hg]
        exact h2

theorem destroy_trace {σ : Type} (IsErrGatewayNotFound : GoError → Bool)
    (conn : Operation σ DescribeGatewayInformationInput DescribeGatewayInformationOutput)
    (resources : List (String × ResourceState)) (s : σ)
    (tr : List (DescribeGatewayInformationInput × Option GoError)) :
    ∃ l, (testAccCheckGatewayDestroy IsErrGatewayNotFound (traced conn) resources
        (s, tr)).2.2 = tr ++ l
      ∧ (∀ input e, (input, some e) ∈ l → IsErrGatewayNotFound e = false →
          (testAccCheckGatewayDestroy IsErrGatewayNotFound (traced conn) resources
            (s, tr)).1 = some e)
      ∧ (∀ e, (testAccCheckGatewayDestroy IsErrGatewayNotFound (traced conn) resources
            (s, tr)).1 = some e →
          IsErrGatewayNotFound e = false ∧ ∃ input, (input, some e) ∈ l) := by
  induction resources generalizing s tr with
  | nil => exact ⟨[], by simp [testAccCheckGatewayDestroy], by simp,
      by simp [testAccCheckGatewayDestroy]⟩
  | cons r rest ih =>
    rcases r with ⟨name, rs⟩
    by_cases ht : rs.Type_ = "aws_storagegateway_gateway"
    · rcases hc : conn { GatewayARN := some rs.Primary.ID } s with ⟨⟨out, err⟩, t⟩
      cases err with
      | some e0 =>
        by_cases hn : IsErrGatewayNotFound e0 = true
        · have hR : testAccCheckGatewayDestroy IsErrGatewayNotFound (traced conn)
              ((name, rs) :: rest) (s, tr)
              = (none, (t, tr ++ [({ GatewayARN := some rs.Primary.ID }, some e0)])) := by
            simp [testAccCheckGatewayDestroy, ht, traced, hc, hn]
          rw [hR]
          refine ⟨[({ GatewayARN := some rs.Primary.ID }, some e0)], rfl, ?_, ?_⟩
          · intro input e hm hf
            simp only [List.mem_singleton, Prod.mk.injEq, Option.some.injEq] at hm
            rw [hm.2, hn] at hf
            exact absurd hf (by decide)
          · intro e he
            simp at he
        · have hn' : IsErrGatewayNotFound e0 = false := by simpa using hn
          have hR : testAccCheckGatewayDestroy IsErrGatewayNotFound (traced conn)
              ((name, rs) :: rest) (s, tr)
              = (some e0, (t, tr ++ [({ GatewayARN := some rs.Primary.ID }, some e0)])) := by
            simp [testAccCheckGatewayDestroy, ht, traced, hc, hn']
          rw [hR]
          refine ⟨[({ GatewayARN := some rs.Primary.ID }, some e0)], rfl, ?_, ?_⟩
          · intro input e hm _
            simp only [List.mem_singleton, Prod.mk.injEq, Option.some.injEq] at hm
            rw [hm.2]
          · intro e he
            simp only [Option.some.injEq] at he
            subst he
            exact ⟨hn', _, List.mem_singleton.mpr rfl⟩
      | none =>
        have hR : testAccCheckGatewayDestroy IsErrGatewayNotFound (traced conn)
            ((name, rs) :: rest) (s, tr)
            = testAccCheckGatewayDestroy IsErrGatewayNotFound (traced conn) rest
                (t, tr ++ [({ GatewayARN := some rs.Primary.ID }, none)]) := by
          simp [testAccCheckGatewayDestroy, ht, traced, hc]
        rw [hR]
        obtain ⟨l, h1, h2, h3⟩ := ih t (tr ++ [({ GatewayARN := some rs.Primary.ID }, none)])
        refine ⟨({ GatewayARN := some rs.Primary.ID }, none) :: l, ?_, ?_, ?_⟩
        · rw [h1]
          simp
        · intro input e hm hf
          rcases List.mem_cons.mp hm with h | h
          · simp at h
          · exact h2 input e h hf
        · intro e he
          obtain ⟨hf, input, hm⟩ := h3 e he
          exact ⟨hf, input, List.mem_cons_of_mem _ hm⟩
    · have hR : testAccCheckGatewayDestroy IsErrGatewayNotFound (traced conn)
          ((name, rs) :: rest) (s, tr)
          = testAccCheckGatewayDestroy IsErrGatewayNotFound (traced conn) rest (s, tr) := by
        simp [testAccCheckGatewayDestroy, ht]
      rw [hR]
      exact ih s tr

/-- C25: `testAccCheckGatewayDestroy` describes gateway resources only. On a
connection that records its requests, the requests it adds are an initial
segment of the requests for the resources of type `aws_storagegateway_gateway`,
in the order they are visited; a resource of another type is passed over
without a call; when the describe call for a gateway resource fails with an
error that is not gateway-not-found, that error is the result of the check.
The last holds wherever the gateway stands among the resources: on a connection
that records each call with its error, every recorded error that is not
gateway-not-found is the result of the check as the same value, and an error
returned by the check is such a recorded error. -/
theorem testAccCheckGatewayDestroy_calls_and_errors {σ : Type}
    (IsErrGatewayNotFound : GoError → Bool)
    (conn : Operation σ DescribeGatewayInformationInput DescribeGatewayInformationOutput)
    (resources : List (String × ResourceState)) (s : σ)
    (log : List DescribeGatewayInformationInput) :
    (∃ l, (testAccCheckGatewayDestroy IsErrGatewayNotFound (logged conn) resources
        (s, log)).2.2 = log ++ l ∧ l <+: gatewayRequests resources)
    ∧ (∀ (name : String) (rs : ResourceState),
        rs.Type_ ≠ "aws_storagegateway_gateway" →
        testAccCheckGatewayDestroy IsErrGatewayNotFound (logged conn)
            ((name, rs) :: resources) (s, log)
          = testAccCheckGatewayDestroy IsErrGatewayNotFound (logged conn) resources (s, log))
    ∧ (∀ (name : String) (rs : ResourceState) (e : GoError),
        rs.Type_ = "aws_storagegateway_gateway" →
        (conn { GatewayARN := some rs.Primary.ID } s).1.2 = some e →
        IsErrGatewayNotFound e = false →
        testAccCheckGatewayDestroy IsErrGatewayNotFound conn ((name, rs) :: resources) s
          = (some e, (conn { GatewayARN := some rs.Primary.ID } s).2))
    ∧ (∀ (input : DescribeGatewayInformationInput) (e : GoError),
        (input, some e) ∈ (testAccCheckGatewayDestroy IsErrGatewayNotFound (traced conn)
          resources (s, [])).2.2 →
        IsErrGatewayNotFound e = false →
        (testAccCheckGatewayDestroy IsErrGatewayNotFound (traced conn) resources
          (s, [])).1 = some e)
    ∧ (∀ (e : GoError),
        (testAccCheckGatewayDestroy IsErrGatewayNotFound (traced conn) resources
          (s, [])).1 = some e →
        IsErrGatewayNotFound e = false
          ∧ ∃ input, (input, some e) ∈ (testAccCheckGatewayDestroy IsErrGatewayNotFound
              (traced conn) resources (s, [])).2.2) := by
  obtain ⟨l, h1, h2, h3⟩ := destroy_trace IsErrGatewayNotFound conn resources s []
  rw [List.nil_append] at h1
  refine ⟨destroy_requests IsErrGatewayNotFound conn resources s log, ?_, ?_, ?_, ?_⟩
  · intro name rs ht
    simp [testAccCheckGatewayDestroy, ht]
  · intro name rs e ht he hn
    simp [testAccCheckGatewayDestroy, ht, he, hn]
  · intro input e hm hf
    rw [h1] at hm
    exact h2 input e hm hf
  · intro e he
    rw [h1]
    exact h3 e he

/-- Instance of C25: two gateway resources, the describe call of the first one
succeeds and that of the second one fails with an internal error; the check
returns that error. -/
theorem testAccCheckGatewayDestroy_calls_and_errors_witness :
    (testAccCheckGatewayDestroy sampleIsGatewayNotFound
        (traced (twoPhaseOperation (some sampleGatewayInformation, none)
          (none, some sampleInternalError)))
        sampleStateTwoGateways (0, [])).1 = some sampleInternalError :=
  (testAccCheckGatewayDestroy_calls_and_errors sampleIsGatewayNotFound
    (twoPhaseOperation (some sampleGatewayInformation, none)
      (none, some sampleInternalError))
    sampleStateTwoGateways 0 []).2.2.2.1
    { GatewayARN := some "arn:aws:storagegateway:gateway/sgw-2" } sampleInternalError
    (by decide) (by decide)

/-- C26, counterexample: a page with one gateway after a nil entry has at least
one gateway, and on it the page callback of `sweepGateways` ends in a nil
pointer panic, for either value of `lastPage`, instead of answering. -/
theorem sweepGateways_pageFn_answer_counterexample :
    some (sampleGateway "sgw-1") ∈ sampleLeadingHolePage.Gateways
    ∧ sweepGateways.pageFn sampleIsGatewayNotFound (logged sampleDelete)
        { service := (0, []), log := [] } (some sampleLeadingHolePage) false
      = Except.error Panic.nilDereference
    ∧ sweepGateways.pageFn sampleIsGatewayNotFound (logged sampleDelete)
        { service := (0, []), log := [] } (some sampleLeadingHolePage) true
      = Except.error Panic.nilDereference :=
  ⟨by decide, rfl, rfl⟩

/-- C26 as amended: on a present page with zero gateways the page callback of
`sweepGateways` answers true whatever `lastPage` is, writes the "No Storage
Gateway Gateways to sweep" line and leaves the service, with its record of
delete requests, as it was; on a present page with at least one gateway, all
entries present, it answers the negation of `lastPage`. -/
theorem sweepGateways_pageFn_answers {σ : Type} (isGatewayNotFound : GoError → Bool)
    (del : Operation σ DeleteGatewayInput DeleteGatewayOutput)
    (w : SweepState (σ × List DeleteGatewayInput)) (marker : Option String)
    (pg : ListGatewaysOutput) (lastPage : Bool)
    (hne : pg.Gateways ≠ []) (hall : pg.Gateways.all Option.isSome = true) :
    sweepGateways.pageFn isGatewayNotFound (logged del) w
        (some { Gateways := [], Marker := marker }) lastPage
      = Except.ok ({ service := w.service, log := w.log ++ [LogLine.noGateways] }, true)
    ∧ (sweepGateways.pageFn isGatewayNotFound (logged del) w (some pg) lastPage).map Prod.snd
      = Except.ok (!lastPage) := by
  constructor
  · simp [sweepGateways.pageFn, deref, bind, Except.bind, pure, Except.pure]
  · obtain ⟨w', hw⟩ := pageFn_answer isGatewayNotFound (logged del) pg hne hall w lastPage
    simp [hw, Except.map]

/-- Instance of the amended C26: an empty page flagged as last is answered with true and no
delete request; a page of two gateways flagged as last is answered with false. -/
theorem sweepGateways_pageFn_answers_witness :
    sweepGateways.pageFn sampleIsGatewayNotFound (logged sampleDelete)
        { service := (0, []), log := [] } (some { Gateways := [], Marker := none }) true
      = Except.ok ({ service := (0, []), log := [LogLine.noGateways] }, true)
    ∧ (sweepGateways.pageFn sampleIsGatewayNotFound (logged sampleDelete)
        { service := (0, []), log := [] }
        (some { Gateways := [some (sampleGateway "sgw-1"), some (sampleGateway "sgw-2")],
                Marker := none }) true).map Prod.snd
      = Except.ok false :=
  sweepGateways_pageFn_answers sampleIsGatewayNotFound sampleDelete
    { service := (0, []), log := [] } none
    { Gateways := [some (sampleGateway "sgw-1"), some (sampleGateway "sgw-2")],
      Marker := none } true (by decide) (by decide)

end StorageGateway
